import Mathlib

/-!
# Verification of the offline cache / operation-queue / sync subsystem
# of the asterixdb-js-connector

Shallow embedding of:
* `src/core/LocalStorageAdapter.js` (CacheStore + OperationQueue),
* `src/offline/SyncManager.js` (SyncCoordinator),
* `src/core/OfflineEnabledConnector.js` (OfflineGateway),

together with theorems settling the claims about them.  JavaScript
machine integers used here (timestamps, TTLs, priorities, counters) are
non-negative integers well below 2^53, so they are modelled as `Nat`;
JS objects that the code reads by field are modelled as structures whose
optional fields are `Option`s (`none` = field absent), and JS truthiness
is made explicit at each use site.  `Date.now()` is passed in as an
explicit `now : Nat`; one call of a modelled method uses a single `now`
(the code may read the clock more than once inside one call, but always
within the same tick for the properties considered here).
-/

set_option maxRecDepth 4000

/-- JSON-like values with *ordered* object fields: JavaScript objects
preserve insertion order and `JSON.stringify` serializes fields in that
order, which is what cache-key derivation hashes. -/
inductive Json where
  | null
  | bool (b : Bool)
  | num (n : Int)
  | str (s : String)
  | arr (xs : List Json)
  | obj (fields : List (String × Json))

/-- Minimal JSON string escaping (quote and backslash); the queries and
option objects fed to key derivation contain no control characters. -/
def jsonEscape (s : String) : String :=
  s.data.foldl
    (fun acc c =>
      if c = '"' then acc ++ "\\\""
      else if c = '\\' then acc ++ "\\\\"
      else acc.push c) ""

mutual

/-- `JSON.stringify`: literal serialization, object fields in stored order
(no canonicalization — this is exactly what the source does). -/
def jsonStringify : Json → String
  | .null => "null"
  | .bool true => "true"
  | .bool false => "false"
  | .num n => toString n
  | .str s => "\"" ++ jsonEscape s ++ "\""
  | .arr xs => "[" ++ String.intercalate "," (jsonStringifyList xs) ++ "]"
  | .obj fs => "\x7b" ++ String.intercalate "," (jsonStringifyFields fs) ++ "\x7d"

def jsonStringifyList : List Json → List String
  | [] => []
  | x :: xs => jsonStringify x :: jsonStringifyList xs

def jsonStringifyFields : List (String × Json) → List String
  | [] => []
  | (k, v) :: fs =>
      ("\"" ++ jsonEscape k ++ "\":" ++ jsonStringify v) :: jsonStringifyFields fs

end

/-! ## MD5 (RFC 1321), on byte lists

`OfflineEnabledConnector.generateCacheKey` returns
`md5(JSON.stringify({query, params}))` in hex.  We implement MD5
concretely so that key (in)equalities are decidable. -/

/-- Truncate to an unsigned 32-bit value. -/
def u32 (n : Nat) : Nat := n % 4294967296

/-- 32-bit left rotation (argument assumed `< 2^32`). -/
def rotl32 (x s : Nat) : Nat := ((x <<< s) ||| (x >>> (32 - s))) % 4294967296

/-- The 64 MD5 sine-derived constants `K[i] = floor(2^32 * |sin(i+1)|)`. -/
def md5K : List Nat :=
  [0xd76aa478, 0xe8c7b756, 0x242070db, 0xc1bdceee,
   0xf57c0faf, 0x4787c62a, 0xa8304613, 0xfd469501,
   0x698098d8, 0x8b44f7af, 0xffff5bb1, 0x895cd7be,
   0x6b901122, 0xfd987193, 0xa679438e, 0x49b40821,
   0xf61e2562, 0xc040b340, 0x265e5a51, 0xe9b6c7aa,
   0xd62f105d, 0x02441453, 0xd8a1e681, 0xe7d3fbc8,
   0x21e1cde6, 0xc33707d6, 0xf4d50d87, 0x455a14ed,
   0xa9e3e905, 0xfcefa3f8, 0x676f02d9, 0x8d2a4c8a,
   0xfffa3942, 0x8771f681, 0x6d9d6122, 0xfde5380c,
   0xa4beea44, 0x4bdecfa9, 0xf6bb4b60, 0xbebfbc70,
   0x289b7ec6, 0xeaa127fa, 0xd4ef3085, 0x04881d05,
   0xd9d4d039, 0xe6db99e5, 0x1fa27cf8, 0xc4ac5665,
   0xf4292244, 0x432aff97, 0xab9423a7, 0xfc93a039,
   0x655b59c3, 0x8f0ccc92, 0xffeff47d, 0x85845dd1,
   0x6fa87e4f, 0xfe2ce6e0, 0xa3014314, 0x4e0811a1,
   0xf7537e82, 0xbd3af235, 0x2ad7d2bb, 0xeb86d391]

/-- The 64 per-round left-rotation amounts. -/
def md5S : List Nat :=
  [7, 12, 17, 22, 7, 12, 17, 22, 7, 12, 17, 22, 7, 12, 17, 22,
   5, 9, 14, 20, 5, 9, 14, 20, 5, 9, 14, 20, 5, 9, 14, 20,
   4, 11, 16, 23, 4, 11, 16, 23, 4, 11, 16, 23, 4, 11, 16, 23,
   6, 10, 15, 21, 6, 10, 15, 21, 6, 10, 15, 21, 6, 10, 15, 21]

/-- One MD5 round on state `(A, B, C, D)` with the 16 message words `M`. -/
def md5Round (M : List Nat) (st : Nat × Nat × Nat × Nat) (i : Nat) :
    Nat × Nat × Nat × Nat :=
  let A := st.1
  let B := st.2.1
  let C := st.2.2.1
  let D := st.2.2.2
  let notMask : Nat := 4294967295
  let fg : Nat × Nat :=
    if i < 16 then ((B &&& C) ||| ((B ^^^ notMask) &&& D), i)
    else if i < 32 then ((D &&& B) ||| ((D ^^^ notMask) &&& C), (5 * i + 1) % 16)
    else if i < 48 then (B ^^^ C ^^^ D, (3 * i + 5) % 16)
    else (C ^^^ (B ||| (D ^^^ notMask)), (7 * i) % 16)
  let f := u32 (fg.1 + A + md5K.getD i 0 + M.getD fg.2 0)
  (D, u32 (B + rotl32 f (md5S.getD i 0)), B, C)

/-- Process one 16-word chunk, adding the result into the running state. -/
def md5Chunk (st : Nat × Nat × Nat × Nat) (M : List Nat) :
    Nat × Nat × Nat × Nat :=
  let r := (List.range 64).foldl (md5Round M) st
  (u32 (st.1 + r.1), u32 (st.2.1 + r.2.1),
   u32 (st.2.2.1 + r.2.2.1), u32 (st.2.2.2 + r.2.2.2))

/-- Group a byte list into little-endian 32-bit words. -/
def toWordsLE : List Nat → List Nat
  | a :: b :: c :: d :: rest =>
      (a + b * 256 + c * 65536 + d * 16777216) :: toWordsLE rest
  | _ => []

/-- Split a word list into chunks of 16 (padded input is always a
multiple of 16 words). -/
def chunks16 : List Nat → List (List Nat)
  | w0 :: w1 :: w2 :: w3 :: w4 :: w5 :: w6 :: w7 ::
    w8 :: w9 :: w10 :: w11 :: w12 :: w13 :: w14 :: w15 :: rest =>
      [w0, w1, w2, w3, w4, w5, w6, w7,
       w8, w9, w10, w11, w12, w13, w14, w15] :: chunks16 rest
  | _ => []

/-- MD5 padding: append `0x80`, zero-pad to 56 mod 64, then the original
bit length as 8 little-endian bytes. -/
def md5Pad (msg : List Nat) : List Nat :=
  let len := msg.length
  let zeros := (64 + 56 - ((len + 1) % 64)) % 64
  let bitLen := len * 8
  msg ++ [128] ++ List.replicate zeros 0 ++
    (List.range 8).map (fun i => (bitLen >>> (8 * i)) % 256)

/-- Lowercase hex digit. -/
def hexDigit (n : Nat) : Char :=
  if n < 10 then Char.ofNat (48 + n) else Char.ofNat (87 + n)

/-- Two lowercase hex digits of a byte. -/
def byteHex (b : Nat) : List Char := [hexDigit (b / 16), hexDigit (b % 16)]

/-- Little-endian byte decomposition of a 32-bit word. -/
def wordBytesLE (w : Nat) : List Nat :=
  [w % 256, w / 256 % 256, w / 65536 % 256, w / 16777216 % 256]

/-- Full MD5 digest of a byte list, as the usual lowercase hex string. -/
def md5Hex (msg : List Nat) : String :=
  let st := (chunks16 (toWordsLE (md5Pad msg))).foldl md5Chunk
    (0x67452301, 0xefcdab89, 0x98badcfe, 0x10325476)
  String.mk (((wordBytesLE st.1 ++ wordBytesLE st.2.1 ++
    wordBytesLE st.2.2.1 ++ wordBytesLE st.2.2.2).map byteHex).flatten)

/-- Byte list of a string.  The strings hashed here are ASCII, for which
code points and UTF-8 bytes coincide. -/
def strBytes (s : String) : List Nat := s.data.map Char.toNat

/-! ## JavaScript string primitives used by query classification

`String.prototype.trim`, `.toUpperCase`, `.startsWith`, modelled on
character lists (queries are ASCII). -/

/-- ASCII uppercasing of one character (`String.prototype.toUpperCase`
restricted to ASCII input). -/
def jsCharUpper (c : Char) : Char :=
  if 'a' ≤ c ∧ c ≤ 'z' then Char.ofNat (c.toNat - 32) else c

/-- JS whitespace as it occurs in queries. -/
def jsWhite (c : Char) : Bool :=
  c = ' ' ∨ c = '\t' ∨ c = '\n' ∨ c = '\r'

/-- `String.prototype.trim`. -/
def jsTrim (s : String) : String :=
  String.mk (((s.data.dropWhile jsWhite).reverse.dropWhile jsWhite).reverse)

/-- `String.prototype.toUpperCase` (ASCII input). -/
def jsToUpper (s : String) : String := String.mk (s.data.map jsCharUpper)

/-- `String.prototype.startsWith`. -/
def jsStartsWith (s pre : String) : Bool := pre.data.isPrefixOf s.data

/-! ## LocalStorageAdapter (`src/core/LocalStorageAdapter.js`)

The three localforage instances (`store`, `queueStore`, `metaStore`) are
modelled as association lists keyed by strings.  `setItem` on an
existing key keeps its iteration position (JS `Map`/object semantics of
the memory driver); a new key is appended.  The asynchronous readiness
barrier and the storage backend are reliable in this model; the one
claim about a failing backend write (C2) injects the failure explicitly
at the call site. -/

/-- `setItem`: update in place if the key exists, else append. -/
def assocSet {α : Type} : List (String × α) → String → α → List (String × α)
  | [], k, v => [(k, v)]
  | (k', v') :: rest, k, v =>
      if k' = k then (k, v) :: rest else (k', v') :: assocSet rest k v

/-- `removeItem` / `delete obj[k]`. -/
def assocRemove {α : Type} : List (String × α) → String → List (String × α)
  | [], _ => []
  | (k', v') :: rest, k =>
      if k' = k then rest else (k', v') :: assocRemove rest k

/-- The metadata fields of a stored cache entry that the code ever
reads.  `ttl` and `lastAccessed` may be absent from the JS object
(`none`). -/
structure CacheMeta where
  timestamp : Nat
  expiresAt : Nat
  ttl : Option Nat
  lastAccessed : Option Nat

/-- A cache entry as persisted by `setCache`. -/
structure CacheEntry where
  data : Json
  metadata : CacheMeta

/-- The caller-supplied `metadata` argument of `setCache`: the fields
that interact with the base object it is spread over. -/
structure MetaArg where
  timestamp : Option Nat
  expiresAt : Option Nat
  ttl : Option Nat

/-- A queued operation object (`{type, query, data}`, plus the
`priority` field read by `queueOperation`).  Absent fields are `none`;
JS falsiness of a string field is absence or emptiness. -/
structure Operation where
  type : Option String
  query : Option String
  data : Option Json
  priority : Option Nat

/-- JS truthiness of an optional string field. -/
def strTruthy : Option String → Bool
  | none => false
  | some s => !(s = "")

/-- Queue-entry metadata created by `queueOperation`. -/
structure OpMeta where
  timestamp : Nat
  status : String
  retryCount : Nat
  priority : Nat

/-- A stored queue entry. -/
structure QueueEntry where
  operation : Operation
  metadata : OpMeta

/-- The persistent state owned by one `LocalStorageAdapter`:
`options.cacheTTL` (never mutated), the cache store, the
`cacheRegistry` aggregate of the meta store, and the operation queue. -/
structure AdapterState where
  cacheTTL : Nat
  store : List (String × CacheEntry)
  registry : List (String × Nat)
  queue : List (String × QueueEntry)

/-- A fresh adapter with the default 1-hour TTL. -/
def initAdapter : AdapterState :=
  { cacheTTL := 3600000, store := [], registry := [], queue := [] }

/-- The entry built by `setCache`: base fields
`{timestamp: now, expiresAt: now + options.cacheTTL}` overridden by the
spread of the supplied metadata. -/
def setCacheEntry (defaultTTL now : Nat) (data : Json) (m : MetaArg) :
    CacheEntry :=
  { data := data
    metadata :=
      { timestamp := m.timestamp.getD now
        expiresAt := m.expiresAt.getD (now + defaultTTL)
        ttl := m.ttl
        lastAccessed := none } }

/-- `setCache(key, data, metadata)`: validates the key, stores the
entry, and unconditionally records `key ↦ expiresAt` in the registry. -/
def setCache (st : AdapterState) (key : String) (data : Json)
    (m : MetaArg) (now : Nat) : Except String AdapterState :=
  if key = "" then
    .error "Invalid cache key: must be a non-empty string"
  else
    let entry := setCacheEntry st.cacheTTL now data m
    .ok { st with
            store := assocSet st.store key entry
            registry := assocSet st.registry key entry.metadata.expiresAt }

/-- `_removeFromCacheRegistry`: deletes the record only when
`registry[key]` is truthy. -/
def removeCacheRegistry (reg : List (String × Nat)) (key : String) :
    List (String × Nat) :=
  if (reg.lookup key).getD 0 ≠ 0 then assocRemove reg key else reg

/-- `removeCache(key)`: removes the entry and its registry record. -/
def removeCache (st : AdapterState) (key : String) : AdapterState :=
  { st with
      store := assocRemove st.store key
      registry := removeCacheRegistry st.registry key }

/-- `getCache(key)`: `null` if absent; lazy expiry (delete and return
`null`) when `expiresAt` is truthy and in the past; otherwise update
`lastAccessed`, persist, and return the entry. -/
def getCache (st : AdapterState) (key : String) (now : Nat) :
    Except String (Option CacheEntry × AdapterState) :=
  if key = "" then
    .error "Invalid cache key: must be a non-empty string"
  else
    match st.store.lookup key with
    | none => .ok (none, st)
    | some e =>
      if e.metadata.expiresAt ≠ 0 ∧ e.metadata.expiresAt < now then
        .ok (none, removeCache st key)
      else
        let e' := { e with
                      metadata := { e.metadata with lastAccessed := some now } }
        .ok (some e', { st with store := assocSet st.store key e' })

/-- `updateCacheTTL(key, newTTL)`: recomputes `expiresAt = now + newTTL`
on the stored entry and updates the registry record when it is
truthy. -/
def updateCacheTTL (st : AdapterState) (key : String) (newTTL now : Nat) :
    Except String AdapterState :=
  match st.store.lookup key with
  | none => .error ("Cache entry " ++ key ++ " not found")
  | some e =>
    let newExp := now + newTTL
    let e' := { e with metadata := { e.metadata with expiresAt := newExp } }
    let reg' :=
      if (st.registry.lookup key).getD 0 ≠ 0 then
        assocSet st.registry key newExp
      else st.registry
    .ok { st with store := assocSet st.store key e', registry := reg' }

/-- `queueOperation(operationId, operation)`: validates id and shape,
then persists with `status='pending'`, `retryCount=0`, and priority
`operation.priority || 1`. -/
def queueOperation (st : AdapterState) (id : String) (op : Operation)
    (now : Nat) : Except String AdapterState :=
  if id = "" then
    .error "Invalid operation ID: must be a non-empty string"
  else if !(strTruthy op.type) || !(strTruthy op.query) then
    .error "Invalid operation: must have type and query properties"
  else
    let entry : QueueEntry :=
      { operation := op
        metadata :=
          { timestamp := now
            status := "pending"
            retryCount := 0
            priority := match op.priority with
                        | some p => if p = 0 then 1 else p
                        | none => 1 } }
    .ok { st with queue := assocSet st.queue id entry }

/-- `removeOperation(operationId)` (the ids reaching it come from the
queue, hence are non-empty; the backend call succeeds in this model). -/
def removeOperation (st : AdapterState) (id : String) : AdapterState :=
  { st with queue := assocRemove st.queue id }

/-- One element of the list returned by `getPendingOperations`:
`{operationId: key, ...value}`. -/
structure PendingOp where
  operationId : String
  operation : Operation
  metadata : OpMeta

/-- The status filter of `getPendingOperations`: an entry is kept unless
`status` is truthy and differs from the entry's status. -/
def keepByStatus (status : Option String) (e : QueueEntry) : Bool :=
  match status with
  | none => true
  | some s => if s = "" then true else e.metadata.status = s

/-- The ordering imposed by the sort comparator: higher priority first,
ties broken by older timestamp first. -/
def opOrder (a b : PendingOp) : Prop :=
  b.metadata.priority < a.metadata.priority ∨
    (a.metadata.priority = b.metadata.priority ∧
      a.metadata.timestamp ≤ b.metadata.timestamp)

instance : DecidableRel opOrder := fun a b => by
  unfold opOrder; infer_instance

instance : IsTotal PendingOp opOrder := by
  constructor; intro a b; unfold opOrder; omega

instance : IsTrans PendingOp opOrder := by
  constructor; intro a b c; unfold opOrder; omega

/-- `getPendingOperations({status?, sortByPriority=true})`: iterate the
queue store in iteration order, filter by status, and (by default) sort
with the priority/timestamp comparator.  `Array.prototype.sort` returns
a permutation of its input sorted by the comparator, modelled by
insertion sort with respect to `opOrder`. -/
def getPendingOperations (st : AdapterState) (status : Option String)
    (sortByPriority : Bool) : List PendingOp :=
  let ops := (st.queue.filter (fun kv => keepByStatus status kv.2)).map
    (fun kv => { operationId := kv.1
                 operation := kv.2.operation
                 metadata := kv.2.metadata })
  if sortByPriority then List.insertionSort opOrder ops else ops

/-! ## SyncManager (`src/offline/SyncManager.js`)

JavaScript is single-threaded and cooperative: a competing `sync()`
call can only interleave at an `await` point of a running pass.  The
pass itself is therefore modelled as a function from coordinator state
to (state, emitted events, remote calls), together with the list of
intermediate states at its `await` points; a "concurrent" second call
is a call of `sync` at one of those intermediate states. -/

/-- Outcome of one `connector.executeQuery(query)` call: the promise
rejects, or resolves with a result object. -/
inductive RemoteOutcome where
  | threw (msg : String)
  | returned (result : Json)

/-- The remote executor collaborator. -/
def Remote := String → RemoteOutcome

/-- JS truthiness of a JSON value (`result && ...`). -/
def jsonTruthy : Json → Bool
  | .null => false
  | .bool b => b
  | .num n => !(n = 0)
  | .str s => !(s = "")
  | .arr _ => true
  | .obj _ => true

/-- Field access `r.status` on a result object. -/
def jsonField (j : Json) (k : String) : Option Json :=
  match j with
  | .obj fs => fs.lookup k
  | _ => none

/-- The sync-loop success oracle: `result && result.status === 'success'`. -/
def remoteSuccess (r : Json) : Bool :=
  jsonTruthy r &&
    (match jsonField r "status" with
     | some (.str s) => s = "success"
     | _ => false)

/-- Events emitted by the coordinator. -/
inductive Event where
  | online
  | offline
  | syncStart
  | syncSkipped (reason : String)
  | syncProgress (total completed : Nat) (operationId : Option String)
  | syncComplete (operationsSynced : Nat)
  | syncConflict (operationId : String) (operation : Operation)
      (metadata : OpMeta) (error : String)
  | syncError (error : String)
  | operationQueued (operationId : String)

/-- The mutable instance state of one `SyncManager`. -/
structure SyncState where
  adapter : AdapterState
  isOnline : Bool
  isSyncing : Bool
  hasTimer : Bool

/-- Whether the operation's type passes the supported-type test of the
sync loop (`INSERT`/`UPDATE`/`DELETE`, exact string comparison). -/
def supportedType (t : Option String) : Bool :=
  t == some "INSERT" || t == some "UPDATE" || t == some "DELETE"

/-- Whether the per-operation body reaches the remote executor:
well-formed shape and supported type. -/
def opExecutable (op : Operation) : Bool :=
  strTruthy op.type && strTruthy op.query && supportedType op.type

/-- Whether the operation is accepted remotely in this pass. -/
def opSucceeds (remote : Remote) (p : PendingOp) : Bool :=
  opExecutable p.operation &&
    (match remote (p.operation.query.getD "") with
     | .returned r => remoteSuccess r
     | .threw _ => false)

/-- Result of processing a prefix of the pending list. -/
structure StepRes where
  adapter : AdapterState
  events : List Event
  calls : List String
  completed : Nat

/-- The per-operation body of the sync loop (one iteration of the
`for` loop, with its `try`/`catch`). -/
def stepOp (remote : Remote) (ad : AdapterState) (total done : Nat)
    (p : PendingOp) : StepRes :=
  if !(strTruthy p.operation.type) || !(strTruthy p.operation.query) then
    { adapter := ad
      events := [.syncConflict p.operationId p.operation p.metadata
        ("Invalid operation format for " ++ p.operationId)]
      calls := []
      completed := done }
  else if supportedType p.operation.type then
    let q := p.operation.query.getD ""
    match remote q with
    | .threw msg =>
        { adapter := ad
          events := [.syncConflict p.operationId p.operation p.metadata msg]
          calls := [q]
          completed := done }
    | .returned r =>
        if remoteSuccess r then
          { adapter := removeOperation ad p.operationId
            events := [.syncProgress total (done + 1) (some p.operationId)]
            calls := [q]
            completed := done + 1 }
        else
          { adapter := ad
            events := [.syncConflict p.operationId p.operation p.metadata
              ("Server rejected operation " ++ p.operationId)]
            calls := [q]
            completed := done }
  else
    { adapter := ad
      events := [.syncConflict p.operationId p.operation p.metadata
        ("Unsupported operation type: " ++ p.operation.type.getD "")]
      calls := []
      completed := done }

/-- The whole `for` loop. -/
def runOps (remote : Remote) (total : Nat) :
    AdapterState → Nat → List PendingOp → StepRes
  | ad, done, [] => { adapter := ad, events := [], calls := [], completed := done }
  | ad, done, p :: rest =>
    let r := stepOp remote ad total done p
    let rr := runOps remote total r.adapter r.completed rest
    { adapter := rr.adapter
      events := r.events ++ rr.events
      calls := r.calls ++ rr.calls
      completed := rr.completed }

/-- Result of one `sync()` call. -/
structure SyncRes where
  state : SyncState
  events : List Event
  calls : List String

/-- `sync()`.  `queueReadOk = false` injects a rejection of
`getPendingOperations` (a queue-read backend failure), the one failure
mode of the top-level `try` that is not per-operation. -/
def sync (remote : Remote) (queueReadOk : Bool) (st : SyncState) : SyncRes :=
  if !st.isOnline then
    { state := st, events := [.syncSkipped "offline"], calls := [] }
  else if st.isSyncing then
    { state := st, events := [], calls := [] }
  else
    let stB := { st with isSyncing := true }
    if !queueReadOk then
      { state := { stB with isSyncing := false }
        events := [.syncStart, .syncError "Failed to retrieve pending operations"]
        calls := [] }
    else
      let pending := getPendingOperations stB.adapter none true
      if pending.length = 0 then
        { state := { stB with isSyncing := false }
          events := [.syncStart, .syncComplete 0]
          calls := [] }
      else
        let r := runOps remote pending.length stB.adapter 0 pending
        { state := { stB with adapter := r.adapter, isSyncing := false }
          events := .syncStart :: .syncProgress pending.length 0 none ::
            (r.events ++ [.syncComplete r.completed])
          calls := r.calls }

/-- Adapter states after each processed operation (the loop's `await`
points). -/
def runOpsStates (remote : Remote) (total : Nat) :
    AdapterState → Nat → List PendingOp → List AdapterState
  | _, _, [] => []
  | ad, done, p :: rest =>
    let r := stepOp remote ad total done p
    r.adapter :: runOpsStates remote total r.adapter r.completed rest

/-- The coordinator states observable at the `await` points inside one
running `sync()` pass — after the busy flag is set and before the
`finally` clause resets it.  A second, "concurrent" `sync()` call on the
same instance executes at one of these states. -/
def syncMidStates (remote : Remote) (queueReadOk : Bool) (st : SyncState) :
    List SyncState :=
  if !st.isOnline then []
  else if st.isSyncing then []
  else
    let stB := { st with isSyncing := true }
    if !queueReadOk then [stB]
    else
      let pending := getPendingOperations stB.adapter none true
      stB :: (runOpsStates remote pending.length stB.adapter 0 pending).map
        (fun ad => { stB with adapter := ad })

/-- `SyncManager.queueOperation`: delegate to the queue, emit
`operationQueued`, and — only when online — attempt one best-effort
`sync()`.  A validation failure propagates before any event. -/
def smQueueOperation (remote : Remote) (queueReadOk : Bool) (st : SyncState)
    (id : String) (op : Operation) (now : Nat) : SyncState × List Event :=
  match queueOperation st.adapter id op now with
  | .error _ => (st, [])
  | .ok ad' =>
    let st1 := { st with adapter := ad' }
    if st1.isOnline then
      let r := sync remote queueReadOk st1
      (r.state, .operationQueued id :: r.events)
    else
      (st1, [.operationQueued id])

/-- `handleOnline`: the browser `online` event handler. -/
def handleOnline (st : SyncState) : SyncState × List Event :=
  ({ st with isOnline := true, hasTimer := true }, [.online])

/-- `handleOffline`: the browser `offline` event handler. -/
def handleOffline (st : SyncState) : SyncState × List Event :=
  ({ st with isOnline := false, hasTimer := false }, [.offline])

/-- `startSync` / `stopSync` / `destroy`: timer management only. -/
def startSync (st : SyncState) : SyncState := { st with hasTimer := true }

def stopSync (st : SyncState) : SyncState := { st with hasTimer := false }

/-- One firing of the periodic timer: `sync()` when online and idle. -/
def timerTick (remote : Remote) (queueReadOk : Bool) (st : SyncState) :
    SyncState :=
  if st.isOnline && !st.isSyncing then (sync remote queueReadOk st).state
  else st

/-- The `SyncManager` constructor.  `isOnline` is seeded from
`navigator.onLine` when a `navigator` global exists and is `true`
otherwise; connectivity listeners are attached only when a `window`
global exists. -/
def initSyncManager (navigatorPresent navigatorOnLine : Bool) : SyncState :=
  { adapter := initAdapter
    isOnline := if navigatorPresent then navigatorOnLine else true
    isSyncing := false
    hasTimer := false }

/-! ## OfflineEnabledConnector (`src/core/OfflineEnabledConnector.js`) -/

/-- `generateCacheKey(query, params)`: md5 hex digest of
`JSON.stringify({query, params})` — the literal serialization, no
canonicalization of field order. -/
def generateCacheKey (query : String) (params : Json) : String :=
  md5Hex (strBytes (jsonStringify
    (Json.obj [("query", Json.str query), ("params", params)])))

/-- `isReadOnlyQuery(query)`: false for a falsy query; otherwise the
trimmed uppercased text must not start with any write keyword (note the
trailing space in `'SET '`). -/
def isReadOnlyQuery (query : String) : Bool :=
  if query = "" then false
  else
    let normalized := jsToUpper (jsTrim query)
    !(["INSERT", "UPSERT", "DELETE", "UPDATE", "CREATE", "DROP",
       "LOAD", "SET "].any (fun op => jsStartsWith normalized op))

/-- `getOperationType(query)`: the leading keyword, or `UNKNOWN`. -/
def getOperationType (query : String) : String :=
  if query = "" then "UNKNOWN"
  else
    let normalized := jsToUpper (jsTrim query)
    if jsStartsWith normalized "INSERT" then "INSERT"
    else if jsStartsWith normalized "UPSERT" then "UPSERT"
    else if jsStartsWith normalized "DELETE" then "DELETE"
    else if jsStartsWith normalized "UPDATE" then "UPDATE"
    else if jsStartsWith normalized "CREATE" then "CREATE"
    else if jsStartsWith normalized "DROP" then "DROP"
    else if jsStartsWith normalized "LOAD" then "LOAD"
    else "UNKNOWN"

/-- Connector construction options (after the constructor merged the
defaults `{cacheEnabled: true, cacheTTL: 3600000}` with the user's). -/
structure ConnOptions where
  cacheEnabled : Bool
  cacheTTL : Nat

/-- Per-call options: the fields `executeQuery` reads.  The whole
options object also enters cache-key derivation via its JSON form. -/
structure CallOptions where
  cacheEnabled : Option Bool
  cacheTTL : Option Nat
  data : Option Json

/-- The JSON object form of a per-call options object (fields in
declaration order), as hashed by `generateCacheKey(query, options)`. -/
def callOptionsJson (o : CallOptions) : Json :=
  Json.obj
    ((match o.cacheEnabled with
      | some b => [("cacheEnabled", Json.bool b)]
      | none => []) ++
     (match o.cacheTTL with
      | some n => [("cacheTTL", Json.num n)]
      | none => []) ++
     (match o.data with
      | some d => [("data", d)]
      | none => []))

/-- `combinedOptions = {...this.options, ...options}`. -/
def combineOptions (conn : ConnOptions) (o : CallOptions) : ConnOptions :=
  { cacheEnabled := o.cacheEnabled.getD conn.cacheEnabled
    cacheTTL := o.cacheTTL.getD conn.cacheTTL }

/-- The distinguishable failures `executeQuery` can reject with. -/
inductive QErr where
  | remoteErr (msg : String)
  | cacheWriteErr
  | offlineNoCache
  | nonCacheableOffline
  | storageErr (msg : String)

/-- What `executeQuery` settles to. -/
inductive QueryOutcome where
  | ok (d : Json)
  | flagged (d : Json) (cacheTimestamp : Nat)
  | queuedAck (operationId : String)
  | err (e : QErr)

/-- The offline-read `catch` fallback: one more `getCache`; a hit is
returned spread with `{_fromCache: true, _cacheTimestamp}`, a miss
rethrows the offline error. -/
def offlineFallback (st : SyncState) (key : String) (now : Nat) :
    QueryOutcome × SyncState :=
  match getCache st.adapter key now with
  | .error m => (.err (.storageErr m), st)
  | .ok (some e, ad) =>
      (.flagged e.data e.metadata.timestamp, { st with adapter := ad })
  | .ok (none, ad) => (.err .offlineNoCache, { st with adapter := ad })

/-- `OfflineEnabledConnector.executeQuery(query, options)`.

`remote` is the wrapped online connector; `cacheWriteOk = false`
injects a backend I/O failure into the write-through `setCache` call
(the storage backend is otherwise reliable); `newOpId` is the generated
operation id for the offline-write path; `now` is the clock. -/
def executeQuery (remote : Remote) (cacheWriteOk : Bool)
    (conn : ConnOptions) (o : CallOptions) (st : SyncState) (query : String)
    (newOpId : String) (now : Nat) : QueryOutcome × SyncState × List Event :=
  let isReadOnly := isReadOnlyQuery query
  let combined := combineOptions conn o
  if isReadOnly && combined.cacheEnabled then
    let cacheKey := generateCacheKey query (callOptionsJson o)
    if st.isOnline then
      match remote query with
      | .threw msg => (.err (.remoteErr msg), st, [])
      | .returned result =>
        if cacheWriteOk then
          match setCache st.adapter cacheKey result
              { timestamp := some now, expiresAt := none,
                ttl := some combined.cacheTTL } now with
          | .ok ad' => (.ok result, { st with adapter := ad' }, [])
          | .error m => (.err (.storageErr m), st, [])
        else
          (.err .cacheWriteErr, st, [])
    else
      match getCache st.adapter cacheKey now with
      | .error m => (.err (.storageErr m), st, [])
      | .ok (some e, ad1) =>
        if e.metadata.timestamp +
            (if e.metadata.ttl.getD 0 = 0 then combined.cacheTTL
             else e.metadata.ttl.getD 0) > now then
          (.ok e.data, { st with adapter := ad1 }, [])
        else
          let r := offlineFallback { st with adapter := ad1 } cacheKey now
          (r.1, r.2, [])
      | .ok (none, ad1) =>
          let r := offlineFallback { st with adapter := ad1 } cacheKey now
          (r.1, r.2, [])
  else if !isReadOnly then
    if st.isOnline then
      match remote query with
      | .threw msg => (.err (.remoteErr msg), st, [])
      | .returned result => (.ok result, st, [])
    else
      let op : Operation :=
        { type := some (getOperationType query)
          query := some query
          data := o.data
          priority := none }
      match queueOperation st.adapter newOpId op now with
      | .error m => (.err (.storageErr m), st, [])
      | .ok ad' =>
          (.queuedAck newOpId, { st with adapter := ad' },
           [.operationQueued newOpId])
  else if isReadOnly && !combined.cacheEnabled && !st.isOnline then
    (.err .nonCacheableOffline, st, [])
  else
    match remote query with
    | .threw msg => (.err (.remoteErr msg), st, [])
    | .returned result => (.ok result, st, [])

/-! ## Iterated passes and the whole-instance action machine -/

/-- `n` successive completed `sync()` passes. -/
def syncIter (remote : Remote) : Nat → SyncState → SyncState
  | 0, st => st
  | n + 1, st => (sync remote true (syncIter remote n st)).state

/-- `clearCache()`: clears the cache store and drops the registry. -/
def clearCacheA (ad : AdapterState) : AdapterState :=
  { ad with store := [], registry := [] }

/-- Every state-touching operation of `SyncManager` and
`OfflineEnabledConnector`, plus the two browser connectivity
handlers. -/
inductive ConnAction where
  | actSync (queueReadOk : Bool)
  | actQueueOp (id : String) (op : Operation) (queueReadOk : Bool) (now : Nat)
  | actStartSync
  | actStopSync
  | actTimerTick (queueReadOk : Bool)
  | actExecQuery (cacheWriteOk : Bool) (o : CallOptions)
      (query newOpId : String) (now : Nat)
  | actClearCache
  | actDestroy
  | actHandleOnline
  | actHandleOffline

/-- The two actions reachable only through browser `window` events. -/
def browserHandler : ConnAction → Bool
  | .actHandleOnline => true
  | .actHandleOffline => true
  | _ => false

/-- State transition of one action. -/
def step (remote : Remote) (conn : ConnOptions) (st : SyncState) :
    ConnAction → SyncState
  | .actSync q => (sync remote q st).state
  | .actQueueOp id op q now => (smQueueOperation remote q st id op now).1
  | .actStartSync => startSync st
  | .actStopSync => stopSync st
  | .actTimerTick q => timerTick remote q st
  | .actExecQuery cw o query newOpId now =>
      (executeQuery remote cw conn o st query newOpId now).2.1
  | .actClearCache => { st with adapter := clearCacheA st.adapter }
  | .actDestroy => stopSync st
  | .actHandleOnline => (handleOnline st).1
  | .actHandleOffline => (handleOffline st).1

/-! ## Concrete fixtures for witnesses and counterexamples -/

/-- An INSERT operation on query text `q`. -/
def insertOp (q : String) : Operation :=
  { type := some "INSERT", query := some q, data := none, priority := none }

/-- An operation with an explicit priority. -/
def prioOp (q : String) (pr : Nat) : Operation :=
  { type := some "INSERT", query := some q, data := none, priority := some pr }

/-- Three operations queued at increasing timestamps. -/
def queueThree : AdapterState :=
  (((queueOperation initAdapter "op1" (insertOp "Q1") 1).bind
      (fun s => queueOperation s "op2" (insertOp "Q2") 2)).bind
      (fun s => queueOperation s "op3" (insertOp "Q3") 3)).toOption.getD initAdapter

/-- An online, idle coordinator holding `queueThree`. -/
def stThree : SyncState :=
  { adapter := queueThree, isOnline := true, isSyncing := false, hasTimer := false }

/-- A remote executor rejecting exactly query `Q2`. -/
def remoteFailQ2 : Remote := fun q =>
  if q = "Q2" then .threw "boom"
  else .returned (Json.obj [("status", Json.str "success")])

/-- A remote executor accepting everything. -/
def remoteAlwaysOk : Remote := fun _ =>
  .returned (Json.obj [("status", Json.str "success")])

/-- Operations queued with priorities `[1, 3, 2]` at increasing
timestamps. -/
def queuePrio : AdapterState :=
  (((queueOperation initAdapter "op1" (prioOp "Q1" 1) 1).bind
      (fun s => queueOperation s "op2" (prioOp "Q2" 3) 2)).bind
      (fun s => queueOperation s "op3" (prioOp "Q3" 2) 3)).toOption.getD initAdapter

/-- A queue holding one UPSERT operation. -/
def queueUpsert : AdapterState :=
  (queueOperation initAdapter "u1"
    { type := some "UPSERT", query := some "UPSERT INTO ds VALUES (1)",
      data := none, priority := none } 5).toOption.getD initAdapter

/-- An online, idle coordinator holding `queueUpsert`. -/
def stUpsert : SyncState :=
  { adapter := queueUpsert, isOnline := true, isSyncing := false, hasTimer := false }

/-- Empty per-call options and the constructor-default connector
options. -/
def oNone : CallOptions := { cacheEnabled := none, cacheTTL := none, data := none }

def connDefault : ConnOptions := { cacheEnabled := true, cacheTTL := 3600000 }

/-- A cache entry whose `expiresAt` (5) is long past at `now = 100`. -/
def expiredEntry : CacheEntry :=
  { data := Json.str "rows"
    metadata := { timestamp := 0, expiresAt := 5, ttl := some 10, lastAccessed := none } }

/-- An offline coordinator whose cache holds `expiredEntry` under the
key of `SELECT * FROM users` with empty options. -/
def stExpired : SyncState :=
  { adapter := { initAdapter with
      store := [(generateCacheKey "SELECT * FROM users" (callOptionsJson oNone),
                 expiredEntry)] }
    isOnline := false
    isSyncing := false
    hasTimer := false }

/-- A cache entry fresh on both expiry checks at `now = 100`. -/
def freshEntry : CacheEntry :=
  { data := Json.str "rows"
    metadata := { timestamp := 90, expiresAt := 1000, ttl := some 50, lastAccessed := none } }

/-- An offline coordinator whose cache holds `freshEntry` under the key
of `SELECT * FROM users` with empty options. -/
def stFresh : SyncState :=
  { adapter := { initAdapter with
      store := [(generateCacheKey "SELECT * FROM users" (callOptionsJson oNone),
                 freshEntry)] }
    isOnline := false
    isSyncing := false
    hasTimer := false }

/-- An online, idle coordinator with empty storage. -/
def stOnline : SyncState :=
  { adapter := initAdapter, isOnline := true, isSyncing := false, hasTimer := false }

/-- A one-entry cache state for the read-idempotence witness. -/
def stOneEntry : AdapterState :=
  { initAdapter with store := [("k", freshEntry)] }

/-- An entry updated with a read timestamp (`lastAccessed`). -/
def withAccess (e : CacheEntry) (t : Nat) : CacheEntry :=
  { e with metadata := { e.metadata with lastAccessed := some t } }

/-! ## Event classifiers used in statements -/

def isSyncStart : Event → Bool
  | .syncStart => true
  | _ => false

/-- A `syncConflict` event for the given operation id. -/
def isConflictFor (id : String) : Event → Bool
  | .syncConflict i _ _ _ => i == id
  | _ => false

/-! ## Helper lemmas: association lists -/

theorem lookup_cons_self {α : Type} (l : List (String × α)) (k : String)
    (v : α) : List.lookup k ((k, v) :: l) = some v := by
  simp [List.lookup]

theorem lookup_cons_ne {α : Type} (l : List (String × α)) (k0 k : String)
    (v : α) (h : k0 ≠ k) : List.lookup k ((k0, v) :: l) = List.lookup k l := by
  rw [List.lookup_cons, beq_eq_false_iff_ne.mpr (Ne.symm h)]

theorem lookup_eq_none_of_not_mem_keys {α : Type} (l : List (String × α))
    (k : String) (h : k ∉ l.map Prod.fst) : List.lookup k l = none := by
  induction l with
  | nil => simp
  | cons kv rest ih =>
    obtain ⟨k0, v0⟩ := kv
    simp only [List.map_cons, List.mem_cons] at h
    push_neg at h
    rw [lookup_cons_ne rest k0 k v0 (fun he => h.1 he.symm)]
    exact ih h.2

theorem assocSet_lookup_self {α : Type} (l : List (String × α)) (k : String)
    (v : α) : (assocSet l k v).lookup k = some v := by
  induction l with
  | nil => simp [assocSet, lookup_cons_self]
  | cons kv rest ih =>
    obtain ⟨k0, v0⟩ := kv
    by_cases h : k0 = k
    · subst h; simp [assocSet, lookup_cons_self]
    · rw [show assocSet ((k0, v0) :: rest) k v = (k0, v0) :: assocSet rest k v by
        simp [assocSet, h]]
      rw [lookup_cons_ne _ _ _ _ h]
      exact ih

theorem assocSet_lookup_ne {α : Type} (l : List (String × α)) (k k' : String)
    (v : α) (h : k' ≠ k) : (assocSet l k v).lookup k' = l.lookup k' := by
  induction l with
  | nil => simp [assocSet, lookup_cons_ne _ _ _ _ (Ne.symm h)]
  | cons kv rest ih =>
    obtain ⟨k0, v0⟩ := kv
    by_cases h0 : k0 = k
    · subst h0
      rw [show assocSet ((k0, v0) :: rest) k0 v = (k0, v) :: rest by simp [assocSet]]
      rw [lookup_cons_ne _ _ _ _ (Ne.symm h), lookup_cons_ne _ _ _ _ (Ne.symm h)]
    · rw [show assocSet ((k0, v0) :: rest) k v = (k0, v0) :: assocSet rest k v by
        simp [assocSet, h0]]
      by_cases h1 : k0 = k'
      · subst h1; rw [lookup_cons_self, lookup_cons_self]
      · rw [lookup_cons_ne _ _ _ _ h1, lookup_cons_ne _ _ _ _ h1]
        exact ih

theorem assocRemove_lookup_ne {α : Type} (l : List (String × α)) (k k' : String)
    (h : k' ≠ k) : (assocRemove l k).lookup k' = l.lookup k' := by
  induction l with
  | nil => simp [assocRemove]
  | cons kv rest ih =>
    obtain ⟨k0, v0⟩ := kv
    by_cases h0 : k0 = k
    · subst h0
      rw [show assocRemove ((k0, v0) :: rest) k0 = rest by simp [assocRemove]]
      rw [lookup_cons_ne _ _ _ _ (Ne.symm h)]
    · rw [show assocRemove ((k0, v0) :: rest) k = (k0, v0) :: assocRemove rest k by
        simp [assocRemove, h0]]
      by_cases h1 : k0 = k'
      · subst h1; rw [lookup_cons_self, lookup_cons_self]
      · rw [lookup_cons_ne _ _ _ _ h1, lookup_cons_ne _ _ _ _ h1]
        exact ih

theorem assocRemove_sublist {α : Type} (l : List (String × α)) (k : String) :
    (assocRemove l k).Sublist l := by
  induction l with
  | nil => simp [assocRemove]
  | cons kv rest ih =>
    obtain ⟨k0, v0⟩ := kv
    by_cases h0 : k0 = k
    · simp [assocRemove, h0]
    · rw [show assocRemove ((k0, v0) :: rest) k = (k0, v0) :: assocRemove rest k by
        simp [assocRemove, h0]]
      exact ih.cons₂ (k0, v0)

theorem assocRemove_lookup_self {α : Type} (l : List (String × α)) (k : String)
    (hnd : (l.map Prod.fst).Nodup) : (assocRemove l k).lookup k = none := by
  induction l with
  | nil => simp [assocRemove]
  | cons kv rest ih =>
    obtain ⟨k0, v0⟩ := kv
    simp only [List.map_cons, List.nodup_cons] at hnd
    by_cases h0 : k0 = k
    · subst h0
      rw [show assocRemove ((k0, v0) :: rest) k0 = rest by simp [assocRemove]]
      exact lookup_eq_none_of_not_mem_keys rest k0 hnd.1
    · rw [show assocRemove ((k0, v0) :: rest) k = (k0, v0) :: assocRemove rest k by
        simp [assocRemove, h0]]
      rw [lookup_cons_ne _ _ _ _ h0]
      exact ih hnd.2

theorem assocRemove_lookup_none {α : Type} (l : List (String × α)) (k k' : String)
    (h : l.lookup k' = none) : (assocRemove l k).lookup k' = none := by
  by_cases hk : k' = k
  · subst hk
    induction l with
    | nil => simp [assocRemove]
    | cons kv rest ih =>
      obtain ⟨k0, v0⟩ := kv
      by_cases h0 : k0 = k'
      · subst h0; rw [lookup_cons_self] at h; cases h
      · rw [lookup_cons_ne _ _ _ _ h0] at h
        rw [show assocRemove ((k0, v0) :: rest) k' = (k0, v0) :: assocRemove rest k' by
          simp [assocRemove, h0]]
        rw [lookup_cons_ne _ _ _ _ h0]
        exact ih h
  · rw [assocRemove_lookup_ne l k k' hk]; exact h

theorem assocSet_keys {α : Type} (l : List (String × α)) (k : String) (v : α) :
    (assocSet l k v).map Prod.fst =
      if k ∈ l.map Prod.fst then l.map Prod.fst else l.map Prod.fst ++ [k] := by
  induction l with
  | nil => simp [assocSet]
  | cons kv rest ih =>
    obtain ⟨k0, v0⟩ := kv
    by_cases h0 : k0 = k
    · subst h0; simp [assocSet]
    · rw [show assocSet ((k0, v0) :: rest) k v = (k0, v0) :: assocSet rest k v by
        simp [assocSet, h0]]
      simp only [List.map_cons, ih, List.mem_cons]
      have hne : k ≠ k0 := fun he => h0 he.symm
      by_cases hm : k ∈ rest.map Prod.fst
      · simp [hm, hne]
      · simp [hm, hne]

theorem assocSet_nodup {α : Type} (l : List (String × α)) (k : String) (v : α)
    (hnd : (l.map Prod.fst).Nodup) : ((assocSet l k v).map Prod.fst).Nodup := by
  rw [assocSet_keys]
  by_cases hm : k ∈ l.map Prod.fst
  · simpa [hm] using hnd
  · rw [if_neg hm, List.nodup_append]
    refine ⟨hnd, List.nodup_singleton k, ?_⟩
    intro a ha hb
    rw [List.mem_singleton] at hb
    subst hb
    exact hm ha

theorem assocRemove_nodup {α : Type} (l : List (String × α)) (k : String)
    (hnd : (l.map Prod.fst).Nodup) : ((assocRemove l k).map Prod.fst).Nodup :=
  (List.Sublist.map Prod.fst (assocRemove_sublist l k)).nodup hnd

theorem lookup_of_mem_nodup {α : Type} (l : List (String × α)) (k : String)
    (v : α) (hnd : (l.map Prod.fst).Nodup) (hm : (k, v) ∈ l) :
    l.lookup k = some v := by
  induction l with
  | nil => simp at hm
  | cons kv rest ih =>
    obtain ⟨k0, v0⟩ := kv
    simp only [List.map_cons, List.nodup_cons] at hnd
    rcases List.mem_cons.mp hm with h | h
    · cases h
      exact lookup_cons_self rest k v
    · have hk : k0 ≠ k := by
        intro he
        exact hnd.1 (he ▸ List.mem_map_of_mem Prod.fst h)
      rw [lookup_cons_ne _ _ _ _ hk]
      exact ih hnd.2 h

theorem mem_of_lookup_eq_some {α : Type} (l : List (String × α)) (k : String)
    (v : α) (h : l.lookup k = some v) : (k, v) ∈ l := by
  induction l with
  | nil => simp at h
  | cons kv rest ih =>
    obtain ⟨k0, v0⟩ := kv
    by_cases h0 : k0 = k
    · subst h0
      rw [lookup_cons_self] at h
      injection h with h1
      subst h1
      exact List.mem_cons_self _ _
    · rw [lookup_cons_ne _ _ _ _ h0] at h
      exact List.mem_cons_of_mem _ (ih h)

/-! ## Helper lemmas: the pending list -/

theorem getPendingOperations_perm (st : AdapterState) :
    (getPendingOperations st none true).Perm
      (st.queue.map (fun kv =>
        { operationId := kv.1
          operation := kv.2.operation
          metadata := kv.2.metadata })) := by
  unfold getPendingOperations
  simp only [keepByStatus, List.filter_true, if_pos]
  exact List.perm_insertionSort opOrder _

theorem pending_ids_nodup (st : AdapterState)
    (hnd : (st.queue.map Prod.fst).Nodup) :
    ((getPendingOperations st none true).map PendingOp.operationId).Nodup := by
  have hperm := (getPendingOperations_perm st).map PendingOp.operationId
  rw [List.Perm.nodup_iff hperm]
  simpa [Function.comp] using hnd

theorem pending_lookup_of_mem (st : AdapterState)
    (hnd : (st.queue.map Prod.fst).Nodup) (p : PendingOp)
    (hp : p ∈ getPendingOperations st none true) :
    st.queue.lookup p.operationId =
      some { operation := p.operation, metadata := p.metadata } := by
  have hm := (getPendingOperations_perm st).mem_iff.mp hp
  obtain ⟨kv, hkv, hfn⟩ := List.mem_map.mp hm
  obtain ⟨k, e⟩ := kv
  cases hfn
  exact lookup_of_mem_nodup _ _ _ hnd hkv

theorem pending_mem_of_lookup (st : AdapterState) (id : String)
    (entry : QueueEntry) (hq : st.queue.lookup id = some entry) :
    ({ operationId := id
       operation := entry.operation
       metadata := entry.metadata } : PendingOp) ∈
      getPendingOperations st none true := by
  have hm := mem_of_lookup_eq_some _ _ _ hq
  refine (getPendingOperations_perm st).mem_iff.mpr ?_
  exact List.mem_map.mpr ⟨(id, entry), hm, rfl⟩

theorem pending_id_inj (st : AdapterState)
    (hnd : (st.queue.map Prod.fst).Nodup) (p p' : PendingOp)
    (hp : p ∈ getPendingOperations st none true)
    (hp' : p' ∈ getPendingOperations st none true)
    (hid : p.operationId = p'.operationId) : p = p' := by
  have h1 := pending_lookup_of_mem st hnd p hp
  have h2 := pending_lookup_of_mem st hnd p' hp'
  rw [hid, h2] at h1
  obtain ⟨c1, c2⟩ := QueueEntry.mk.inj (Option.some.inj h1)
  cases p
  cases p'
  simp_all

/-! ## Helper lemmas: one loop iteration -/

theorem stepOp_adapter (remote : Remote) (ad : AdapterState) (total done : Nat)
    (p : PendingOp) :
    (stepOp remote ad total done p).adapter =
      if opSucceeds remote p then removeOperation ad p.operationId else ad := by
  cases hT : strTruthy p.operation.type <;>
    cases hQ : strTruthy p.operation.query <;>
      simp only [stepOp, opSucceeds, opExecutable, hT, hQ, Bool.not_false,
        Bool.not_true, Bool.false_or, Bool.or_false, Bool.true_or, Bool.or_true,
        Bool.false_and, Bool.true_and, Bool.and_false, Bool.and_true,
        if_true, if_false, Bool.false_eq_true, reduceIte]
  cases hS : supportedType p.operation.type <;>
    simp only [hS, Bool.false_and, Bool.true_and, if_true, if_false,
      Bool.false_eq_true, reduceIte]
  cases hr : remote (p.operation.query.getD "") with
  | threw m => simp
  | returned r =>
    cases hRS : remoteSuccess r <;> simp [hRS]

theorem stepOp_completed (remote : Remote) (ad : AdapterState) (total done : Nat)
    (p : PendingOp) :
    (stepOp remote ad total done p).completed =
      if opSucceeds remote p then done + 1 else done := by
  cases hT : strTruthy p.operation.type <;>
    cases hQ : strTruthy p.operation.query <;>
      simp only [stepOp, opSucceeds, opExecutable, hT, hQ, Bool.not_false,
        Bool.not_true, Bool.false_or, Bool.or_false, Bool.true_or, Bool.or_true,
        Bool.false_and, Bool.true_and, Bool.and_false, Bool.and_true,
        if_true, if_false, Bool.false_eq_true, reduceIte]
  cases hS : supportedType p.operation.type <;>
    simp only [hS, Bool.false_and, Bool.true_and, if_true, if_false,
      Bool.false_eq_true, reduceIte]
  cases hr : remote (p.operation.query.getD "") with
  | threw m => simp
  | returned r =>
    cases hRS : remoteSuccess r <;> simp [hRS]

theorem stepOp_conflict_count (remote : Remote) (ad : AdapterState)
    (total done : Nat) (p : PendingOp) (id : String) :
    (stepOp remote ad total done p).events.countP (isConflictFor id) =
      if p.operationId == id && !(opSucceeds remote p) then 1 else 0 := by
  cases hT : strTruthy p.operation.type <;>
    cases hQ : strTruthy p.operation.query <;>
      simp only [stepOp, opSucceeds, opExecutable, hT, hQ, Bool.not_false,
        Bool.not_true, Bool.false_or, Bool.or_false, Bool.true_or, Bool.or_true,
        Bool.false_and, Bool.true_and, Bool.and_false, Bool.and_true,
        if_true, if_false, Bool.false_eq_true, reduceIte] <;>
      simp [List.countP_cons, isConflictFor]
  cases hS : supportedType p.operation.type <;>
    simp only [hS, Bool.false_and, Bool.true_and, if_true, if_false,
      Bool.false_eq_true, reduceIte]
  · simp [List.countP_cons, isConflictFor]
  cases hr : remote (p.operation.query.getD "") with
  | threw m => simp [List.countP_cons, isConflictFor]
  | returned r =>
    cases hRS : remoteSuccess r <;>
      simp [hRS, List.countP_cons, isConflictFor]

theorem stepOp_no_syncStart (remote : Remote) (ad : AdapterState)
    (total done : Nat) (p : PendingOp) :
    (stepOp remote ad total done p).events.countP isSyncStart = 0 := by
  cases hT : strTruthy p.operation.type <;>
    cases hQ : strTruthy p.operation.query <;>
      simp only [stepOp, hT, hQ, Bool.not_false, Bool.not_true, Bool.false_or,
        Bool.or_false, Bool.true_or, Bool.or_true, if_true, if_false,
        Bool.false_eq_true, reduceIte] <;>
      simp [List.countP_cons, isSyncStart]
  cases hS : supportedType p.operation.type <;>
    simp only [hS, if_true, if_false, Bool.false_eq_true, reduceIte]
  · simp [List.countP_cons, isSyncStart]
  cases hr : remote (p.operation.query.getD "") with
  | threw m => simp [List.countP_cons, isSyncStart]
  | returned r =>
    cases hRS : remoteSuccess r <;>
      simp [hRS, List.countP_cons, isSyncStart]

theorem stepOp_calls (remote : Remote) (ad : AdapterState) (total done : Nat)
    (p : PendingOp) :
    (stepOp remote ad total done p).calls =
      if opExecutable p.operation then [p.operation.query.getD ""] else [] := by
  cases hT : strTruthy p.operation.type <;>
    cases hQ : strTruthy p.operation.query <;>
      simp only [stepOp, opExecutable, hT, hQ, Bool.not_false, Bool.not_true,
        Bool.false_or, Bool.or_false, Bool.true_or, Bool.or_true,
        Bool.false_and, Bool.true_and, Bool.and_false, Bool.and_true,
        if_true, if_false, Bool.false_eq_true, reduceIte]
  cases hS : supportedType p.operation.type <;>
    simp only [hS, Bool.false_and, Bool.true_and, if_true, if_false,
      Bool.false_eq_true, reduceIte]
  cases hr : remote (p.operation.query.getD "") with
  | threw m => simp
  | returned r =>
    cases hRS : remoteSuccess r <;> simp [hRS]

/-! ## Helper lemmas: the whole loop -/

theorem runOps_completed (remote : Remote) (total : Nat) (ps : List PendingOp) :
    ∀ (ad : AdapterState) (done : Nat),
      (runOps remote total ad done ps).completed =
        done + ps.countP (fun p => opSucceeds remote p) := by
  induction ps with
  | nil => intro ad done; simp [runOps]
  | cons p rest ih =>
    intro ad done
    simp only [runOps, ih, stepOp_completed, List.countP_cons]
    by_cases h : opSucceeds remote p = true <;> simp [h] <;> omega

theorem runOps_no_syncStart (remote : Remote) (total : Nat) (ps : List PendingOp) :
    ∀ (ad : AdapterState) (done : Nat),
      (runOps remote total ad done ps).events.countP isSyncStart = 0 := by
  induction ps with
  | nil => intro ad done; simp [runOps]
  | cons p rest ih =>
    intro ad done
    simp [runOps, List.countP_append, stepOp_no_syncStart, ih]

theorem runOps_conflict_count (remote : Remote) (total : Nat) (id : String)
    (ps : List PendingOp) :
    ∀ (ad : AdapterState) (done : Nat),
      (runOps remote total ad done ps).events.countP (isConflictFor id) =
        ps.countP (fun p => p.operationId == id && !(opSucceeds remote p)) := by
  induction ps with
  | nil => intro ad done; simp [runOps]
  | cons p rest ih =>
    intro ad done
    simp only [runOps, List.countP_append, List.countP_cons, ih,
      stepOp_conflict_count]
    by_cases h : (p.operationId == id && !(opSucceeds remote p)) = true <;>
      simp [h] <;> omega

theorem runOps_calls (remote : Remote) (total : Nat) (ps : List PendingOp) :
    ∀ (ad : AdapterState) (done : Nat),
      (runOps remote total ad done ps).calls =
        (ps.filter (fun p => opExecutable p.operation)).map
          (fun p => p.operation.query.getD "") := by
  induction ps with
  | nil => intro ad done; simp [runOps]
  | cons p rest ih =>
    intro ad done
    simp only [runOps, stepOp_calls, ih, List.filter_cons]
    by_cases h : opExecutable p.operation = true <;> simp [h]

theorem runOps_lookup_preserved (remote : Remote) (total : Nat) (id : String)
    (ps : List PendingOp) :
    ∀ (ad : AdapterState) (done : Nat),
      (∀ p ∈ ps, p.operationId ≠ id ∨ opSucceeds remote p = false) →
      (runOps remote total ad done ps).adapter.queue.lookup id =
        ad.queue.lookup id := by
  induction ps with
  | nil => intro ad done _; simp [runOps]
  | cons p rest ih =>
    intro ad done h
    simp only [runOps]
    rw [ih _ _ (fun q hq => h q (List.mem_cons_of_mem p hq))]
    rw [stepOp_adapter]
    rcases h p (List.mem_cons_self p rest) with hne | hfail
    · by_cases hs : opSucceeds remote p = true
      · simp only [hs, if_true]
        exact assocRemove_lookup_ne _ _ _ (Ne.symm hne)
      · simp [hs]
    · simp [hfail]

theorem runOps_lookup_none_mono (remote : Remote) (total : Nat) (id : String)
    (ps : List PendingOp) :
    ∀ (ad : AdapterState) (done : Nat),
      ad.queue.lookup id = none →
      (runOps remote total ad done ps).adapter.queue.lookup id = none := by
  induction ps with
  | nil => intro ad done h; simpa [runOps] using h
  | cons p rest ih =>
    intro ad done h
    simp only [runOps]
    apply ih
    rw [stepOp_adapter]
    by_cases hs : opSucceeds remote p = true
    · simp only [hs, if_true]
      exact assocRemove_lookup_none _ _ _ h
    · simpa [hs] using h

theorem runOps_nodup (remote : Remote) (total : Nat) (ps : List PendingOp) :
    ∀ (ad : AdapterState) (done : Nat),
      (ad.queue.map Prod.fst).Nodup →
      ((runOps remote total ad done ps).adapter.queue.map Prod.fst).Nodup := by
  induction ps with
  | nil => intro ad done h; simpa [runOps] using h
  | cons p rest ih =>
    intro ad done h
    simp only [runOps]
    apply ih
    rw [stepOp_adapter]
    by_cases hs : opSucceeds remote p = true
    · simp only [hs, if_true]
      exact assocRemove_nodup _ _ h
    · simpa [hs] using h

theorem runOps_lookup_removed (remote : Remote) (total : Nat) (id : String)
    (ps : List PendingOp) :
    ∀ (ad : AdapterState) (done : Nat),
      (ad.queue.map Prod.fst).Nodup →
      (∃ p ∈ ps, p.operationId = id ∧ opSucceeds remote p = true) →
      (runOps remote total ad done ps).adapter.queue.lookup id = none := by
  induction ps with
  | nil =>
    intro ad done _ h
    obtain ⟨p, hp, _⟩ := h
    simp at hp
  | cons q rest ih =>
    intro ad done hnd h
    obtain ⟨p, hp, hid, hs⟩ := h
    rcases List.mem_cons.mp hp with he | hm
    · subst he
      simp only [runOps]
      apply runOps_lookup_none_mono
      rw [stepOp_adapter, if_pos hs, hid]
      exact assocRemove_lookup_self _ _ hnd
    · simp only [runOps]
      apply ih
      · rw [stepOp_adapter]
        by_cases hq : opSucceeds remote q = true
        · simp only [hq, if_true]
          exact assocRemove_nodup _ _ hnd
        · simpa [hq] using hnd
      · exact ⟨p, hm, hid, hs⟩

/-! ## Helper lemmas: one sync pass -/

theorem sync_busy (remote : Remote) (q : Bool) (st : SyncState)
    (hon : st.isOnline = true) (hs : st.isSyncing = true) :
    sync remote q st = { state := st, events := [], calls := [] } := by
  simp [sync, hon, hs]

theorem sync_isOnline (remote : Remote) (q : Bool) (st : SyncState) :
    (sync remote q st).state.isOnline = st.isOnline := by
  unfold sync
  by_cases hon : st.isOnline <;> by_cases hs : st.isSyncing <;>
    cases q <;> simp [hon, hs] <;> split <;> simp

theorem sync_not_syncing (remote : Remote) (q : Bool) (st : SyncState)
    (hidle : st.isSyncing = false) :
    (sync remote q st).state.isSyncing = false := by
  unfold sync
  by_cases hon : st.isOnline <;> cases q <;>
    simp [hon, hidle] <;> split <;> simp

theorem sync_nodup (remote : Remote) (q : Bool) (st : SyncState)
    (hnd : (st.adapter.queue.map Prod.fst).Nodup) :
    ((sync remote q st).state.adapter.queue.map Prod.fst).Nodup := by
  unfold sync
  by_cases hon : st.isOnline <;> by_cases hs : st.isSyncing <;>
    cases q <;> simp [hon, hs, hnd]
  split
  · exact hnd
  · exact runOps_nodup _ _ _ _ _ hnd

theorem syncMidStates_mem (remote : Remote) (q : Bool) (st : SyncState)
    (m : SyncState) (hm : m ∈ syncMidStates remote q st) :
    m.isSyncing = true ∧ m.isOnline = st.isOnline := by
  unfold syncMidStates at hm
  by_cases hon : st.isOnline
  · by_cases hs : st.isSyncing
    · simp [hon, hs] at hm
    · cases q
      · simp only [hon, hs, Bool.not_true, Bool.not_false, Bool.false_eq_true,
          if_false, if_true, List.mem_singleton] at hm
        subst hm; exact ⟨rfl, hon.symm⟩
      · simp only [hon, hs, Bool.not_true, Bool.not_false, Bool.false_eq_true,
          if_false, if_true, List.mem_cons] at hm
        rcases hm with hm | hm
        · subst hm; exact ⟨rfl, hon.symm⟩
        · obtain ⟨ad, _, hma⟩ := List.mem_map.mp hm
          subst hma; exact ⟨rfl, hon.symm⟩
  · simp [hon] at hm

/-! ## Claim theorems -/

/-- C5: `getPendingOperations` with `sortByPriority = true` (the
default) returns all queued operations, ordered by priority descending
with ties broken by timestamp ascending; in particular, operations
queued with priorities `[1, 3, 2]` at increasing timestamps come back
in the order priority 3, priority 2, priority 1. -/
theorem getPendingOperations_priority_order :
    (∀ st : AdapterState,
      (getPendingOperations st none true).Perm
        (st.queue.map (fun kv =>
          { operationId := kv.1
            operation := kv.2.operation
            metadata := kv.2.metadata })) ∧
      List.Sorted opOrder (getPendingOperations st none true)) ∧
    (getPendingOperations queuePrio none true).map PendingOp.operationId =
      ["op2", "op3", "op1"] ∧
    (getPendingOperations queuePrio none true).map
      (fun p => p.metadata.priority) = [3, 2, 1] := by
  refine ⟨fun st => ⟨getPendingOperations_perm st, ?_⟩, by decide, by decide⟩
  unfold getPendingOperations
  simp only [if_pos]
  exact List.sorted_insertionSort opOrder _

/-- C3: on an online, idle coordinator, one `sync()` call emits exactly
one `syncStart`; the coordinator is back to `isSyncing = false` (Idle)
after the pass settles on every exit path (top-level error, empty
queue, per-operation failures included); and a second `sync()` call
interleaved at any `await` point of the running pass returns
immediately with no state change, no events and no remote calls. -/
theorem sync_mutual_exclusion (remote : Remote) (queueReadOk : Bool)
    (st : SyncState) (hon : st.isOnline = true) (hidle : st.isSyncing = false) :
    (sync remote queueReadOk st).events.countP isSyncStart = 1 ∧
    (sync remote queueReadOk st).state.isSyncing = false ∧
    (sync remote queueReadOk st).state.isOnline = true ∧
    (∀ m ∈ syncMidStates remote queueReadOk st, ∀ (remote2 : Remote) (q2 : Bool),
      sync remote2 q2 m = { state := m, events := [], calls := [] }) := by
  refine ⟨?_, sync_not_syncing _ _ _ hidle,
    (sync_isOnline _ _ _).trans hon, ?_⟩
  · unfold sync
    cases queueReadOk
    · simp [hon, hidle, isSyncStart]
    · simp only [hon, hidle, Bool.not_true, Bool.not_false, Bool.false_eq_true,
        if_false, if_true]
      split
      · simp [isSyncStart]
      · simp [List.countP_cons, List.countP_append, isSyncStart,
          runOps_no_syncStart]
  · intro m hm remote2 q2
    obtain ⟨h1, h2⟩ := syncMidStates_mem remote queueReadOk st m hm
    exact sync_busy remote2 q2 m (h2.trans hon) h1

/-- Witness for C3 at a concrete online, idle coordinator with three
queued operations. -/
theorem sync_mutual_exclusion_witness :
    (sync remoteFailQ2 true stThree).events.countP isSyncStart = 1 ∧
    (sync remoteFailQ2 true stThree).state.isSyncing = false :=
  ⟨(sync_mutual_exclusion remoteFailQ2 true stThree rfl rfl).1,
   (sync_mutual_exclusion remoteFailQ2 true stThree rfl rfl).2.1⟩

theorem sync_empty_queue (remote : Remote) (st : SyncState)
    (hon : st.isOnline = true) (hidle : st.isSyncing = false)
    (hnil : getPendingOperations st.adapter none true = []) :
    sync remote true st =
      { state := { adapter := st.adapter, isOnline := st.isOnline,
                   isSyncing := false, hasTimer := st.hasTimer }
        events := [.syncStart, .syncComplete 0]
        calls := [] } := by
  unfold sync
  simp [hon, hidle, hnil]

theorem sync_run (remote : Remote) (st : SyncState)
    (hon : st.isOnline = true) (hidle : st.isSyncing = false)
    (hp0 : ¬(getPendingOperations st.adapter none true).length = 0) :
    sync remote true st =
      { state := { adapter := (runOps remote
                        (getPendingOperations st.adapter none true).length
                        st.adapter 0
                        (getPendingOperations st.adapter none true)).adapter
                   isOnline := st.isOnline
                   isSyncing := false
                   hasTimer := st.hasTimer }
        events := .syncStart ::
                    .syncProgress
                      (getPendingOperations st.adapter none true).length 0 none ::
                    ((runOps remote
                        (getPendingOperations st.adapter none true).length
                        st.adapter 0
                        (getPendingOperations st.adapter none true)).events ++
                      [.syncComplete (runOps remote
                        (getPendingOperations st.adapter none true).length
                        st.adapter 0
                        (getPendingOperations st.adapter none true)).completed])
        calls := (runOps remote
                    (getPendingOperations st.adapter none true).length
                    st.adapter 0
                    (getPendingOperations st.adapter none true)).calls } := by
  unfold sync
  simp [hon, hidle, hp0]

/-- C4: in one sync pass, every failing operation (remote rejection,
execution error, malformed shape, unsupported type) produces exactly
one `syncConflict` and stays queued with its stored entry untouched;
every operation whose response has `status = success` is removed;
failures never abort the batch; and the pass ends with `syncComplete`
carrying the number of removed operations. -/
theorem sync_conflict_isolation (remote : Remote) (st : SyncState)
    (hon : st.isOnline = true) (hidle : st.isSyncing = false)
    (hnd : (st.adapter.queue.map Prod.fst).Nodup) :
    (∀ p ∈ getPendingOperations st.adapter none true,
        opSucceeds remote p = false →
          (sync remote true st).events.countP (isConflictFor p.operationId) = 1 ∧
          (sync remote true st).state.adapter.queue.lookup p.operationId =
            st.adapter.queue.lookup p.operationId) ∧
    (∀ p ∈ getPendingOperations st.adapter none true,
        opSucceeds remote p = true →
          (sync remote true st).state.adapter.queue.lookup p.operationId = none) ∧
    (sync remote true st).events.getLast? =
      some (.syncComplete ((getPendingOperations st.adapter none true).countP
        (fun p => opSucceeds remote p))) := by
  by_cases hp0 : (getPendingOperations st.adapter none true).length = 0
  · have hnil : getPendingOperations st.adapter none true = [] :=
      List.length_eq_zero.mp hp0
    rw [sync_empty_queue remote st hon hidle hnil]
    simp [hnil]
  · rw [sync_run remote st hon hidle hp0]
    refine ⟨?_, ?_, ?_⟩
    · intro p hp hfail
      constructor
      · simp only [List.countP_cons, List.countP_append, List.countP_nil,
          runOps_conflict_count]
        have hc1 : isConflictFor p.operationId Event.syncStart = false := rfl
        have hc2 : isConflictFor p.operationId (Event.syncProgress
            (getPendingOperations st.adapter none true).length 0 none) = false := rfl
        have hc3 : ∀ n, isConflictFor p.operationId (Event.syncComplete n) = false :=
          fun _ => rfl
        rw [hc1, hc2, hc3]
        simp only [if_false, Bool.false_eq_true, reduceIte, Nat.add_zero,
          Nat.zero_add]
        have hmemid : p.operationId ∈
            (getPendingOperations st.adapter none true).map PendingOp.operationId :=
          List.mem_map_of_mem PendingOp.operationId hp
        have hub : (getPendingOperations st.adapter none true).countP
              (fun q => q.operationId == p.operationId && !(opSucceeds remote q)) ≤
            (getPendingOperations st.adapter none true).countP
              (fun q => q.operationId == p.operationId) :=
          List.countP_mono_left (fun x _ hx => by
            rw [Bool.and_eq_true] at hx; exact hx.1)
        have heq : (getPendingOperations st.adapter none true).countP
            (fun q => q.operationId == p.operationId) = 1 := by
          have hmc : (getPendingOperations st.adapter none true).countP
              (fun q => q.operationId == p.operationId) =
              ((getPendingOperations st.adapter none true).map
                PendingOp.operationId).countP (fun s => s == p.operationId) := by
            rw [List.countP_map]; rfl
          rw [hmc]
          have hcnt := List.count_eq_one_of_mem (pending_ids_nodup st.adapter hnd)
            hmemid
          simpa [List.count] using hcnt
        have hlb : 0 < (getPendingOperations st.adapter none true).countP
            (fun q => q.operationId == p.operationId && !(opSucceeds remote q)) :=
          List.countP_pos.mpr ⟨p, hp, by simp [hfail]⟩
        omega
      · rw [runOps_lookup_preserved]
        intro q hq
        by_cases hqp : q.operationId = p.operationId
        · have := pending_id_inj st.adapter hnd q p hq hp hqp
          subst this
          exact Or.inr hfail
        · exact Or.inl hqp
    · intro p hp hsucc
      exact runOps_lookup_removed remote _ p.operationId _ _ _ hnd
        ⟨p, hp, rfl, hsucc⟩
    · rw [show (Event.syncStart :: Event.syncProgress
            (getPendingOperations st.adapter none true).length 0 none ::
            ((runOps remote (getPendingOperations st.adapter none true).length
                st.adapter 0 (getPendingOperations st.adapter none true)).events ++
              [Event.syncComplete (runOps remote
                (getPendingOperations st.adapter none true).length st.adapter 0
                (getPendingOperations st.adapter none true)).completed]) :
            List Event) =
          (Event.syncStart :: Event.syncProgress
            (getPendingOperations st.adapter none true).length 0 none ::
            (runOps remote (getPendingOperations st.adapter none true).length
              st.adapter 0 (getPendingOperations st.adapter none true)).events) ++
            [Event.syncComplete (runOps remote
              (getPendingOperations st.adapter none true).length st.adapter 0
              (getPendingOperations st.adapter none true)).completed] from by simp]
      rw [List.getLast?_concat, runOps_completed]
      simp

/-- Witness for C4: three queued INSERTs where exactly the second is
rejected remotely — operations 1 and 3 are removed, operation 2 stays,
one `syncConflict` for it is emitted, and the pass ends with
`syncComplete{operationsSynced: 2}`. -/
theorem sync_conflict_isolation_witness :
    ((sync remoteFailQ2 true stThree).events.countP (isConflictFor "op2") = 1 ∧
     (sync remoteFailQ2 true stThree).state.adapter.queue.lookup "op1" = none ∧
     (sync remoteFailQ2 true stThree).state.adapter.queue.lookup "op3" = none ∧
     ((sync remoteFailQ2 true stThree).state.adapter.queue.lookup "op2").isSome
        = true ∧
     (sync remoteFailQ2 true stThree).events.getLast? =
        some (.syncComplete 2)) ∧
    (sync remoteFailQ2 true stThree).state.adapter.queue.lookup "op1" = none :=
  ⟨⟨by decide, rfl, rfl, rfl, rfl⟩,
   (sync_conflict_isolation remoteFailQ2 stThree rfl rfl (by decide)).2.1
     { operationId := "op1", operation := insertOp "Q1",
       metadata := { timestamp := 1, status := "pending",
                     retryCount := 0, priority := 1 } }
     (pending_mem_of_lookup stThree.adapter "op1"
       { operation := insertOp "Q1",
         metadata := { timestamp := 1, status := "pending",
                       retryCount := 0, priority := 1 } } rfl)
     (by decide)⟩

/-- A failing pending operation gets exactly one `syncConflict` in the
pass (general helper shared with the unsupported-type analysis). -/
theorem sync_fail_conflict_once (remote : Remote) (st : SyncState)
    (hon : st.isOnline = true) (hidle : st.isSyncing = false)
    (hnd : (st.adapter.queue.map Prod.fst).Nodup) (p : PendingOp)
    (hp : p ∈ getPendingOperations st.adapter none true)
    (hfail : opSucceeds remote p = false) :
    (sync remote true st).events.countP (isConflictFor p.operationId) = 1 := by
  by_cases hp0 : (getPendingOperations st.adapter none true).length = 0
  · rw [List.length_eq_zero.mp hp0] at hp
    simp at hp
  · rw [sync_run remote st hon hidle hp0]
    simp only [List.countP_cons, List.countP_append, List.countP_nil,
      runOps_conflict_count]
    have hc1 : isConflictFor p.operationId Event.syncStart = false := rfl
    have hc2 : isConflictFor p.operationId (Event.syncProgress
        (getPendingOperations st.adapter none true).length 0 none) = false := rfl
    have hc3 : ∀ n, isConflictFor p.operationId (Event.syncComplete n) = false :=
      fun _ => rfl
    rw [hc1, hc2, hc3]
    simp only [if_false, Bool.false_eq_true, reduceIte, Nat.add_zero,
      Nat.zero_add]
    have hmemid : p.operationId ∈
        (getPendingOperations st.adapter none true).map PendingOp.operationId :=
      List.mem_map_of_mem PendingOp.operationId hp
    have hub : (getPendingOperations st.adapter none true).countP
          (fun q => q.operationId == p.operationId && !(opSucceeds remote q)) ≤
        (getPendingOperations st.adapter none true).countP
          (fun q => q.operationId == p.operationId) :=
      List.countP_mono_left (fun x _ hx => by
        rw [Bool.and_eq_true] at hx; exact hx.1)
    have heq : (getPendingOperations st.adapter none true).countP
        (fun q => q.operationId == p.operationId) = 1 := by
      have hmc : (getPendingOperations st.adapter none true).countP
          (fun q => q.operationId == p.operationId) =
          ((getPendingOperations st.adapter none true).map
            PendingOp.operationId).countP (fun s => s == p.operationId) := by
        rw [List.countP_map]; rfl
      rw [hmc]
      have hcnt := List.count_eq_one_of_mem (pending_ids_nodup st.adapter hnd)
        hmemid
      simpa [List.count] using hcnt
    have hlb : 0 < (getPendingOperations st.adapter none true).countP
        (fun q => q.operationId == p.operationId && !(opSucceeds remote q)) :=
      List.countP_pos.mpr ⟨p, hp, by simp [hfail]⟩
    omega

/-- An operation of unsupported type can never succeed in a pass. -/
theorem opSucceeds_false_of_unsupported (remote : Remote) (p : PendingOp)
    (hbad : supportedType p.operation.type = false) :
    opSucceeds remote p = false := by
  simp [opSucceeds, opExecutable, hbad]

/-- C9: a sync pass sends to the remote executor exactly the
well-formed operations typed INSERT/UPDATE/DELETE; a queued operation
of any other type (UPSERT, CREATE, DROP, LOAD, UNKNOWN — the type
synthesized for an offline write led by SET or an unrecognized keyword)
draws one `syncConflict` on every pass, is never executed or removed,
and stays queued (unchanged) after any number of passes. -/
theorem sync_unsupported_type_stays (remote : Remote) (st : SyncState)
    (id : String) (entry : QueueEntry)
    (hon : st.isOnline = true) (hidle : st.isSyncing = false)
    (hnd : (st.adapter.queue.map Prod.fst).Nodup)
    (hq : st.adapter.queue.lookup id = some entry)
    (hbad : supportedType entry.operation.type = false) :
    (∀ n, (sync remote true (syncIter remote n st)).calls =
        ((getPendingOperations (syncIter remote n st).adapter none true).filter
          (fun p => opExecutable p.operation)).map
          (fun p => p.operation.query.getD "")) ∧
    (∀ n, (syncIter remote n st).adapter.queue.lookup id = some entry ∧
      (sync remote true (syncIter remote n st)).events.countP
        (isConflictFor id) = 1) ∧
    (getOperationType "SET x = 1" = "UNKNOWN" ∧
      isReadOnlyQuery "SET x = 1" = false) := by
  have inv : ∀ n, (syncIter remote n st).isOnline = true ∧
      (syncIter remote n st).isSyncing = false ∧
      ((syncIter remote n st).adapter.queue.map Prod.fst).Nodup ∧
      (syncIter remote n st).adapter.queue.lookup id = some entry := by
    intro n
    induction n with
    | zero => exact ⟨hon, hidle, hnd, hq⟩
    | succ n ih =>
      obtain ⟨h1, h2, h3, h4⟩ := ih
      refine ⟨(sync_isOnline _ _ _).trans h1, sync_not_syncing _ _ _ h2,
        sync_nodup _ _ _ h3, ?_⟩
      show (sync remote true (syncIter remote n st)).state.adapter.queue.lookup
        id = some entry
      by_cases hp0 : (getPendingOperations
          (syncIter remote n st).adapter none true).length = 0
      · simp only [sync_empty_queue remote _ h1 h2 (List.length_eq_zero.mp hp0)]
        exact h4
      · simp only [sync_run remote _ h1 h2 hp0]
        have hpre : ∀ p ∈ getPendingOperations
            (syncIter remote n st).adapter none true,
            p.operationId ≠ id ∨ opSucceeds remote p = false := by
          intro p hp
          by_cases hpid : p.operationId = id
          · right
            have hl := pending_lookup_of_mem _ h3 p hp
            rw [hpid, h4] at hl
            obtain ⟨hop, _⟩ := QueueEntry.mk.inj (Option.some.inj hl)
            exact opSucceeds_false_of_unsupported remote p (hop ▸ hbad)
          · exact Or.inl hpid
        rw [runOps_lookup_preserved remote _ id _ _ _ hpre]
        exact h4
  refine ⟨?_, ?_, by decide, by decide⟩
  · intro n
    obtain ⟨h1, h2, h3, h4⟩ := inv n
    by_cases hp0 : (getPendingOperations
        (syncIter remote n st).adapter none true).length = 0
    · have hnil := List.length_eq_zero.mp hp0
      simp only [sync_empty_queue remote _ h1 h2 hnil, hnil]
      simp
    · simp only [sync_run remote _ h1 h2 hp0]
      exact runOps_calls remote _ _ _ _
  · intro n
    obtain ⟨h1, h2, h3, h4⟩ := inv n
    refine ⟨h4, ?_⟩
    have hmem := pending_mem_of_lookup (syncIter remote n st).adapter id entry h4
    have hfail : opSucceeds remote
        ({ operationId := id, operation := entry.operation,
           metadata := entry.metadata } : PendingOp) = false :=
      opSucceeds_false_of_unsupported remote _ hbad
    exact sync_fail_conflict_once remote _ h1 h2 h3 _ hmem hfail

/-- Witness for C9: a queued UPSERT against an always-accepting remote
still conflicts on every pass and is never removed. -/
theorem sync_unsupported_type_stays_witness :
    (syncIter remoteAlwaysOk 2 stUpsert).adapter.queue.lookup "u1" =
        some { operation := { type := some "UPSERT",
                              query := some "UPSERT INTO ds VALUES (1)",
                              data := none, priority := none }
               metadata := { timestamp := 5, status := "pending",
                             retryCount := 0, priority := 1 } } ∧
      (sync remoteAlwaysOk true (syncIter remoteAlwaysOk 2 stUpsert)).events.countP
        (isConflictFor "u1") = 1 :=
  (sync_unsupported_type_stays remoteAlwaysOk stUpsert "u1"
    { operation := { type := some "UPSERT",
                     query := some "UPSERT INTO ds VALUES (1)",
                     data := none, priority := none }
      metadata := { timestamp := 5, status := "pending",
                    retryCount := 0, priority := 1 } }
    rfl rfl (by decide) rfl (by decide)).2.1 2

/-- An md5 hex digest is never the empty string (so cache keys always
pass the adapter's key validation). -/
theorem md5Hex_ne_empty (msg : List Nat) : md5Hex msg ≠ "" := by
  unfold md5Hex
  intro h
  have hd := congrArg String.data h
  simp [wordBytesLE, byteHex] at hd

/-- C1 (amended): an offline cached read is governed by two distinct
expiry checks.  With an entry under the query's key: if the adapter's
`expiresAt` has passed, `getCache` lazily deletes the entry and the
read fails with the offline-no-cache error; otherwise, if the
connector's `timestamp + ttl` check still holds the data is returned
plainly, and if it fails the data is returned flagged with
`_fromCache`/`_cacheTimestamp`.  With no entry, the read fails with the
offline-no-cache error. -/
theorem executeQuery_offline_cached_read (remote : Remote)
    (cacheWriteOk : Bool) (conn : ConnOptions) (o : CallOptions)
    (st : SyncState) (query opId : String) (now : Nat)
    (hoff : st.isOnline = false)
    (hro : isReadOnlyQuery query = true)
    (hce : (combineOptions conn o).cacheEnabled = true)
    (hnd : (st.adapter.store.map Prod.fst).Nodup) :
    (st.adapter.store.lookup (generateCacheKey query (callOptionsJson o)) =
        none →
      (executeQuery remote cacheWriteOk conn o st query opId now).1 =
        .err .offlineNoCache) ∧
    (∀ e, st.adapter.store.lookup (generateCacheKey query (callOptionsJson o)) =
        some e →
      ((e.metadata.expiresAt ≠ 0 ∧ e.metadata.expiresAt < now) →
        (executeQuery remote cacheWriteOk conn o st query opId now).1 =
          .err .offlineNoCache ∧
        (executeQuery remote cacheWriteOk conn o st query opId
            now).2.1.adapter.store.lookup
          (generateCacheKey query (callOptionsJson o)) = none) ∧
      (¬(e.metadata.expiresAt ≠ 0 ∧ e.metadata.expiresAt < now) →
        ((e.metadata.timestamp +
            (if e.metadata.ttl.getD 0 = 0 then (combineOptions conn o).cacheTTL
             else e.metadata.ttl.getD 0) > now →
          (executeQuery remote cacheWriteOk conn o st query opId now).1 =
            .ok e.data) ∧
         (¬(e.metadata.timestamp +
            (if e.metadata.ttl.getD 0 = 0 then (combineOptions conn o).cacheTTL
             else e.metadata.ttl.getD 0) > now) →
          (executeQuery remote cacheWriteOk conn o st query opId now).1 =
            .flagged e.data e.metadata.timestamp)))) := by
  have hkne : generateCacheKey query (callOptionsJson o) ≠ "" :=
    md5Hex_ne_empty _
  constructor
  · intro habs
    unfold executeQuery
    simp [hro, hce, hoff, getCache, hkne, habs, offlineFallback]
  · intro e he
    constructor
    · intro hexp
      unfold executeQuery
      simp only [hro, hce, hoff, Bool.and_self, if_true, Bool.false_eq_true,
        if_false, Bool.true_and]
      rw [show getCache st.adapter
          (generateCacheKey query (callOptionsJson o)) now =
          .ok (none, removeCache st.adapter
            (generateCacheKey query (callOptionsJson o))) from by
        simp [getCache, hkne, he, hexp]]
      have hrem : (removeCache st.adapter
          (generateCacheKey query (callOptionsJson o))).store.lookup
          (generateCacheKey query (callOptionsJson o)) = none := by
        simp only [removeCache]
        exact assocRemove_lookup_self _ _ hnd
      constructor
      · simp [offlineFallback, getCache, hkne, hrem]
      · simp [offlineFallback, getCache, hkne, hrem]
    · intro hfr
      constructor
      · intro hconn
        unfold executeQuery
        simp [hro, hce, hoff, getCache, hkne, he, hfr, hconn]
      · intro hconn
        unfold executeQuery
        simp only [hro, hce, hoff, Bool.and_self, if_true, Bool.false_eq_true,
          if_false, Bool.true_and]
        rw [show getCache st.adapter
            (generateCacheKey query (callOptionsJson o)) now =
            .ok (some { e with metadata :=
                          { e.metadata with lastAccessed := some now } },
              { st.adapter with
                  store := assocSet st.adapter.store
                             (generateCacheKey query (callOptionsJson o))
                             { e with metadata :=
                                 { e.metadata with
                                     lastAccessed := some now } } }) from by
          simp [getCache, hkne, he, hfr]]
        simp only []
        rw [if_neg (by simpa using hconn)]
        have hlk : (assocSet st.adapter.store
            (generateCacheKey query (callOptionsJson o))
            { e with metadata :=
              { e.metadata with lastAccessed := some now } }).lookup
            (generateCacheKey query (callOptionsJson o)) =
            some { e with metadata :=
              { e.metadata with lastAccessed := some now } } :=
          assocSet_lookup_self _ _ _
        simp [offlineFallback, getCache, hkne, hlk, hfr]

/-- Witness for C1 at a concrete offline state with a fresh cached
entry: the cached data is returned. -/
theorem executeQuery_offline_cached_read_witness :
    (executeQuery remoteAlwaysOk true connDefault oNone stFresh
      "SELECT * FROM users" "id1" 100).1 = .ok (Json.str "rows") :=
  (((executeQuery_offline_cached_read remoteAlwaysOk true connDefault oNone
      stFresh "SELECT * FROM users" "id1" 100 rfl (by decide) rfl
      (by decide)).2 freshEntry rfl).2 (by decide)).1 (by decide)

/-- Counterexample for C1 as stated: offline, caching enabled, an entry
present under the query's key but past its `expiresAt` — the claim says
its data is still returned flagged, but the read fails with the
offline-no-cache error (the entry is lazily deleted first). -/
theorem executeQuery_offline_expired_cache_counterexample :
    stExpired.adapter.store.lookup
        (generateCacheKey "SELECT * FROM users" (callOptionsJson oNone)) =
      some expiredEntry ∧
    expiredEntry.metadata.expiresAt ≠ 0 ∧
    expiredEntry.metadata.expiresAt < 100 ∧
    (executeQuery remoteAlwaysOk true connDefault oNone stExpired
      "SELECT * FROM users" "id1" 100).1 = .err .offlineNoCache :=
  ⟨rfl, by decide, by decide, rfl⟩

/-- C2 (amended): for an online cached read whose remote execution
succeeds, the result is returned (and written through to the cache)
only when the cache write succeeds; a cache-store failure after the
successful remote execution is rethrown while online, so the read
fails with the caching error instead of returning the remote result. -/
theorem executeQuery_online_read_writethrough (remote : Remote)
    (conn : ConnOptions) (o : CallOptions) (st : SyncState)
    (query opId : String) (now : Nat) (d : Json)
    (hon : st.isOnline = true) (hro : isReadOnlyQuery query = true)
    (hce : (combineOptions conn o).cacheEnabled = true)
    (hres : remote query = .returned d) :
    (executeQuery remote true conn o st query opId now).1 = .ok d ∧
    ((executeQuery remote true conn o st query opId
        now).2.1.adapter.store.lookup
      (generateCacheKey query (callOptionsJson o))).isSome = true ∧
    (executeQuery remote false conn o st query opId now).1 =
      .err .cacheWriteErr := by
  have hkne : generateCacheKey query (callOptionsJson o) ≠ "" :=
    md5Hex_ne_empty _
  refine ⟨?_, ?_, ?_⟩
  · unfold executeQuery
    simp [hro, hce, hon, hres, setCache, hkne]
  · unfold executeQuery
    simp [hro, hce, hon, hres, setCache, hkne, assocSet_lookup_self]
  · unfold executeQuery
    simp [hro, hce, hon, hres]

/-- Witness for C2 at a concrete online state with an accepting remote
and a working cache backend. -/
theorem executeQuery_online_read_writethrough_witness :
    (executeQuery remoteAlwaysOk true connDefault oNone stOnline
      "SELECT * FROM users" "id1" 0).1 =
        .ok (Json.obj [("status", Json.str "success")]) ∧
    ((executeQuery remoteAlwaysOk true connDefault oNone stOnline
        "SELECT * FROM users" "id1" 0).2.1.adapter.store.lookup
      (generateCacheKey "SELECT * FROM users" (callOptionsJson oNone))).isSome
        = true :=
  ⟨(executeQuery_online_read_writethrough remoteAlwaysOk connDefault oNone
      stOnline "SELECT * FROM users" "id1" 0
      (Json.obj [("status", Json.str "success")]) rfl (by decide) rfl rfl).1,
   (executeQuery_online_read_writethrough remoteAlwaysOk connDefault oNone
      stOnline "SELECT * FROM users" "id1" 0
      (Json.obj [("status", Json.str "success")]) rfl (by decide) rfl rfl).2.1⟩

/-- Counterexample for C2 as stated: the remote execution succeeds, the
write-through to the cache store fails, and the read rejects with the
caching error instead of returning the remote result. -/
theorem executeQuery_online_cacheFailure_counterexample :
    remoteAlwaysOk "SELECT * FROM users" =
      .returned (Json.obj [("status", Json.str "success")]) ∧
    (executeQuery remoteAlwaysOk false connDefault oNone stOnline
      "SELECT * FROM users" "id1" 0).1 = .err .cacheWriteErr ∧
    (executeQuery remoteAlwaysOk false connDefault oNone stOnline
        "SELECT * FROM users" "id1" 0).1 ≠
      .ok (Json.obj [("status", Json.str "success")]) :=
  ⟨rfl, rfl, by
    rw [show (executeQuery remoteAlwaysOk false connDefault oNone stOnline
      "SELECT * FROM users" "id1" 0).1 = .err .cacheWriteErr from rfl]
    simp⟩

/-- C6 (amended): at creation `setCache` stores
`expiresAt = now + options.cacheTTL` — the configured default — and
ignores `metadata.ttl` for expiry (the supplied metadata is spread over
the base fields, so an explicit `metadata.timestamp`/`expiresAt` would
override them; with neither supplied, `timestamp = now`); the registry
records the same `expiresAt`.  After `updateCacheTTL(key, t)` the
entry's `expiresAt = now + t`, and the registry record is updated to
match whenever the key has a truthy registry record. -/
theorem cache_ttl_expiry :
    (∀ (st : AdapterState) (key : String) (data : Json) (m : MetaArg)
        (now : Nat) (st' : AdapterState), key ≠ "" → m.expiresAt = none →
      m.timestamp = none → setCache st key data m now = .ok st' →
      (st'.store.lookup key).map (fun e => e.metadata.expiresAt) =
          some (now + st.cacheTTL) ∧
      (st'.store.lookup key).map (fun e => e.metadata.timestamp) = some now ∧
      (st'.store.lookup key).map (fun e => e.metadata.ttl) = some m.ttl ∧
      st'.registry.lookup key = some (now + st.cacheTTL)) ∧
    (∀ (st : AdapterState) (key : String) (t now : Nat) (st' : AdapterState)
        (e : CacheEntry), st.store.lookup key = some e →
      updateCacheTTL st key t now = .ok st' →
      (st'.store.lookup key).map (fun x => x.metadata.expiresAt) =
          some (now + t) ∧
      ((st.registry.lookup key).getD 0 ≠ 0 →
        st'.registry.lookup key = some (now + t))) := by
  constructor
  · intro st key data m now st' hkey hm1 hm2 hset
    unfold setCache at hset
    rw [if_neg hkey] at hset
    cases hset
    refine ⟨?_, ?_, ?_, ?_⟩ <;>
      simp [assocSet_lookup_self, setCacheEntry, hm1, hm2]
  · intro st key t now st' e he hupd
    unfold updateCacheTTL at hupd
    rw [he] at hupd
    cases hupd
    constructor
    · simp [assocSet_lookup_self]
    · intro htr
      simp only [if_pos htr]
      exact assocSet_lookup_self _ _ _

/-- Witness for C6 at concrete inputs: default TTL 3600000, `now =
1000`, then a TTL update to 7 at `now = 2000`. -/
theorem cache_ttl_expiry_witness :
    (((setCache initAdapter "k" Json.null
        { timestamp := none, expiresAt := none, ttl := some 5 }
        1000).toOption.getD initAdapter).store.lookup "k").map
      (fun e => e.metadata.expiresAt) = some 3601000 ∧
    (((updateCacheTTL ((setCache initAdapter "k" Json.null
        { timestamp := none, expiresAt := none, ttl := some 5 }
        1000).toOption.getD initAdapter) "k" 7
        2000).toOption.getD initAdapter).store.lookup "k").map
      (fun e => e.metadata.expiresAt) = some 2007 :=
  ⟨((cache_ttl_expiry.1 initAdapter "k" Json.null
      { timestamp := none, expiresAt := none, ttl := some 5 } 1000 _
      (by decide) rfl rfl rfl).1),
   ((cache_ttl_expiry.2 ((setCache initAdapter "k" Json.null
      { timestamp := none, expiresAt := none, ttl := some 5 }
      1000).toOption.getD initAdapter) "k" 7 2000 _
      { data := Json.null
        metadata := { timestamp := 1000, expiresAt := 3601000,
                      ttl := some 5, lastAccessed := none } }
      rfl rfl).1)⟩

/-- Counterexample for C6 as stated: with supplied `metadata.ttl = 5`,
the stored entry has `expiresAt = 3601000 ≠ timestamp + 5` — the ttl
taken from the metadata does not enter the expiry computation. -/
theorem setCache_ttl_metadata_counterexample :
    (((setCache initAdapter "k" Json.null
        { timestamp := none, expiresAt := none, ttl := some 5 }
        1000).toOption.getD initAdapter).store.lookup "k").map
      (fun e => e.metadata.ttl) = some (some 5) ∧
    (((setCache initAdapter "k" Json.null
        { timestamp := none, expiresAt := none, ttl := some 5 }
        1000).toOption.getD initAdapter).store.lookup "k").map
      (fun e => e.metadata.timestamp) = some 1000 ∧
    (((setCache initAdapter "k" Json.null
        { timestamp := none, expiresAt := none, ttl := some 5 }
        1000).toOption.getD initAdapter).store.lookup "k").map
      (fun e => e.metadata.expiresAt) = some 3601000 ∧
    (3601000 : Nat) ≠ 1000 + 5 :=
  ⟨rfl, rfl, rfl, by decide⟩

/-- C8: two consecutive `getCache` reads of a stored, unexpired entry
return identical data; the stored entry changes only in
`metadata.lastAccessed` (data, timestamp, expiresAt, ttl keep their
values); other keys, the registry and the queue are untouched. -/
theorem getCache_read_idempotent (st : AdapterState) (key : String)
    (e : CacheEntry) (now1 now2 : Nat) (hk : key ≠ "")
    (he : st.store.lookup key = some e)
    (hfr : ¬(e.metadata.expiresAt ≠ 0 ∧ e.metadata.expiresAt < now2))
    (hle : now1 ≤ now2) :
    getCache st key now1 = .ok (some (withAccess e now1),
      { st with store := assocSet st.store key (withAccess e now1) }) ∧
    getCache { st with store := assocSet st.store key (withAccess e now1) }
        key now2 =
      .ok (some (withAccess e now2),
        { st with store := assocSet
                             (assocSet st.store key (withAccess e now1)) key
                             (withAccess e now2) }) ∧
    (withAccess e now1).data = e.data ∧
    (withAccess e now2).data = e.data ∧
    (withAccess e now2).metadata.timestamp = e.metadata.timestamp ∧
    (withAccess e now2).metadata.expiresAt = e.metadata.expiresAt ∧
    (withAccess e now2).metadata.ttl = e.metadata.ttl ∧
    (assocSet (assocSet st.store key (withAccess e now1)) key
        (withAccess e now2)).lookup key = some (withAccess e now2) ∧
    (∀ k, k ≠ key →
      (assocSet (assocSet st.store key (withAccess e now1)) key
        (withAccess e now2)).lookup k = st.store.lookup k) := by
  have hfr1 : ¬(e.metadata.expiresAt ≠ 0 ∧ e.metadata.expiresAt < now1) := by
    intro h
    exact hfr ⟨h.1, lt_of_lt_of_le h.2 hle⟩
  refine ⟨?_, ?_, rfl, rfl, rfl, rfl, rfl, assocSet_lookup_self _ _ _, ?_⟩
  · unfold getCache
    rw [if_neg hk, he]
    simp [hfr1, withAccess]
  · unfold getCache
    rw [if_neg hk]
    simp only [assocSet_lookup_self]
    simp [withAccess, hfr]
  · intro k hkk
    rw [assocSet_lookup_ne _ _ _ _ hkk, assocSet_lookup_ne _ _ _ _ hkk]

/-- Witness for C8 at a concrete one-entry store read at times 10 and
20. -/
theorem getCache_read_idempotent_witness :
    getCache stOneEntry "k" 10 = .ok (some (withAccess freshEntry 10),
      { stOneEntry with
          store := assocSet stOneEntry.store "k" (withAccess freshEntry 10) }) ∧
    (withAccess freshEntry 10).data = freshEntry.data ∧
    (withAccess freshEntry 20).data = freshEntry.data :=
  ⟨(getCache_read_idempotent stOneEntry "k" freshEntry 10 20 (by decide) rfl
      (by decide) (by decide)).1,
   (getCache_read_idempotent stOneEntry "k" freshEntry 10 20 (by decide) rfl
      (by decide) (by decide)).2.2.1,
   (getCache_read_idempotent stOneEntry "k" freshEntry 10 20 (by decide) rfl
      (by decide) (by decide)).2.2.2.1⟩

/-- C7 (amended): the cache key is the md5 of the literal
`JSON.stringify({query, params})` — a function of the exact textual
representation, with no canonicalization: parameter values with equal
serializations always map to the same key, while reordering object
fields changes the serialization and, in general, the key. -/
theorem generateCacheKey_serialization (q : String) (p1 p2 : Json)
    (h : jsonStringify p1 = jsonStringify p2) :
    generateCacheKey q p1 = generateCacheKey q p2 := by
  unfold generateCacheKey
  simp only [jsonStringify, jsonStringifyFields, h]

/-- Witness for C7 (amended) at concrete serialization-equal inputs. -/
theorem generateCacheKey_serialization_witness :
    generateCacheKey "SELECT 1" (Json.obj [("a", Json.num 1)]) =
      generateCacheKey "SELECT 1" (Json.obj [("a", Json.num 1)]) :=
  generateCacheKey_serialization "SELECT 1" (Json.obj [("a", Json.num 1)])
    (Json.obj [("a", Json.num 1)]) rfl

/-- Counterexample for C7 as stated: two parameter objects holding the
same fields in different order (a permutation) receive different cache
keys, so the derivation does not canonicalize field order. -/
theorem generateCacheKey_not_canonical :
    [("a", Json.num 1), ("b", Json.num 2)].Perm
      [("b", Json.num 2), ("a", Json.num 1)] ∧
    generateCacheKey "SELECT * FROM users"
        (Json.obj [("a", Json.num 1), ("b", Json.num 2)]) ≠
      generateCacheKey "SELECT * FROM users"
        (Json.obj [("b", Json.num 2), ("a", Json.num 1)]) :=
  ⟨List.Perm.swap _ _ _, by decide⟩

/-! ## Helper lemmas: connectivity flag -/

theorem offlineFallback_isOnline (st : SyncState) (key : String) (now : Nat) :
    (offlineFallback st key now).2.isOnline = st.isOnline := by
  unfold offlineFallback
  split <;> rfl

theorem executeQuery_isOnline (remote : Remote) (cw : Bool)
    (conn : ConnOptions) (o : CallOptions) (st : SyncState)
    (query opId : String) (now : Nat) :
    (executeQuery remote cw conn o st query opId now).2.1.isOnline =
      st.isOnline := by
  unfold executeQuery
  repeat' split
  all_goals try simp [apply_ite
    (fun x : QueryOutcome × SyncState × List Event => x.2.1.isOnline),
    offlineFallback_isOnline]
  all_goals intros
  all_goals repeat' split
  all_goals try simp [apply_ite
    (fun x : QueryOutcome × SyncState × List Event => x.2.1.isOnline),
    offlineFallback_isOnline]

theorem smQueueOperation_isOnline (remote : Remote) (q : Bool)
    (st : SyncState) (id : String) (op : Operation) (now : Nat) :
    (smQueueOperation remote q st id op now).1.isOnline = st.isOnline := by
  unfold smQueueOperation
  split
  · rfl
  · by_cases hon : st.isOnline = true
    · simp [hon, sync_isOnline]
    · simp [hon]

theorem timerTick_isOnline (remote : Remote) (q : Bool) (st : SyncState) :
    (timerTick remote q st).isOnline = st.isOnline := by
  unfold timerTick
  split
  · exact sync_isOnline _ _ _
  · rfl

/-- C10: without browser globals the coordinator starts online
(`isOnline = true`), and no operation of `SyncManager` or
`OfflineEnabledConnector` other than the browser event handlers
`handleOnline`/`handleOffline` ever mutates `isOnline` — so every
action trace avoiding the handlers keeps the coordinator online, and
with `isOnline = true` the offline read/queue outcomes are
unreachable. -/
theorem isOnline_environment_invariant (remote : Remote)
    (conn : ConnOptions) (b : Bool) :
    (initSyncManager false b).isOnline = true ∧
    (∀ (st : SyncState) (a : ConnAction), browserHandler a = false →
      (step remote conn st a).isOnline = st.isOnline) ∧
    (∀ acts : List ConnAction, (∀ a ∈ acts, browserHandler a = false) →
      (acts.foldl (step remote conn) (initSyncManager false b)).isOnline =
        true) ∧
    (∀ (cw : Bool) (o : CallOptions) (st : SyncState) (q opId oid : String)
        (now : Nat), st.isOnline = true →
      (executeQuery remote cw conn o st q opId now).1 ≠ .queuedAck oid ∧
      (executeQuery remote cw conn o st q opId now).1 ≠
        .err .offlineNoCache ∧
      (executeQuery remote cw conn o st q opId now).1 ≠
        .err .nonCacheableOffline) := by
  have hstep : ∀ (st : SyncState) (a : ConnAction), browserHandler a = false →
      (step remote conn st a).isOnline = st.isOnline := by
    intro st a hb
    cases a with
    | actSync q => exact sync_isOnline _ _ _
    | actQueueOp id op q now => exact smQueueOperation_isOnline _ _ _ _ _ _
    | actStartSync => rfl
    | actStopSync => rfl
    | actTimerTick q => exact timerTick_isOnline _ _ _
    | actExecQuery cw o query newOpId now => exact executeQuery_isOnline _ _ _ _ _ _ _ _
    | actClearCache => rfl
    | actDestroy => rfl
    | actHandleOnline => simp [browserHandler] at hb
    | actHandleOffline => simp [browserHandler] at hb
  refine ⟨rfl, hstep, ?_, ?_⟩
  · have haux : ∀ (acts : List ConnAction) (st : SyncState),
        (∀ a ∈ acts, browserHandler a = false) → st.isOnline = true →
        (acts.foldl (step remote conn) st).isOnline = true := by
      intro acts
      induction acts with
      | nil => intro st _ h; simpa using h
      | cons a rest ih =>
        intro st hb h
        simp only [List.foldl_cons]
        exact ih _ (fun x hx => hb x (List.mem_cons_of_mem a hx))
          ((hstep st a (hb a (List.mem_cons_self a rest))).trans h)
    intro acts hb
    exact haux acts _ hb rfl
  · intro cw o st q opId oid now hon
    unfold executeQuery
    refine ⟨?_, ?_, ?_⟩ <;>
      · simp only [hon]
        repeat' split
        all_goals simp_all

/-- Witness for C10: a concrete handler-free action trace from the
no-browser initial state stays online. -/
theorem isOnline_environment_invariant_witness :
    (([ConnAction.actSync true, ConnAction.actStartSync,
       ConnAction.actTimerTick true, ConnAction.actStopSync,
       ConnAction.actDestroy]).foldl (step remoteAlwaysOk connDefault)
      (initSyncManager false false)).isOnline = true :=
  (isOnline_environment_invariant remoteAlwaysOk connDefault false).2.2.1
    [ConnAction.actSync true, ConnAction.actStartSync,
     ConnAction.actTimerTick true, ConnAction.actStopSync,
     ConnAction.actDestroy] (by decide)
